import Mathlib

/-!
Verification development for the VCM simulator's protocol engine.

The wire codec (`src/vcm_protocol.py`) and the protocol state machine
(`src/vcm_state_machine.py`) are embedded shallowly:

* hex payload strings are modelled as `List Char`;
* Python `int` values are modelled as `Int` (the two hex byte fields that
  `parse_message` converts with `int(s, 16)` can in principle be negative,
  because Python's `int` also accepts a sign character);
* the wall clock (`time.time()`) is an explicit parameter `now : ℚ` threaded
  through the two operations that read it;
* `Optional`/`try-except` soft failures are modelled with `Option`;
* the state machine object (its `VCMContext` plus the private tracking
  attributes of the `VCMStateMachine` class) is a single state record, and
  every Python method that mutates it becomes a function returning the list
  of produced messages together with the updated record.  The
  `send_callback` attribute is pure I/O plumbing and is not part of the
  data model.
-/

namespace VCMSim

/-- Value of one ASCII hexadecimal digit character, upper or lower case —
the digit alphabet of `bytes.fromhex` (CPython rejects anything
non-ASCII there). -/
def hexDigitVal? (c : Char) : Option Nat :=
  if '0' ≤ c ∧ c ≤ '9' then some (c.toNat - '0'.toNat)
  else if 'a' ≤ c ∧ c ≤ 'f' then some (c.toNat - 'a'.toNat + 10)
  else if 'A' ≤ c ∧ c ≤ 'F' then some (c.toNat - 'A'.toNat + 10)
  else none

/-- Characters stripped by Python's `int()` around the number: the six
ASCII whitespace characters, plus the non-ASCII code points with the
Unicode white-space property, which `int()` maps to a space before
parsing (verified against CPython:  the ASCII control characters
`\x1c`-`\x1f` are *not* stripped and make `int()` raise). -/
def pyWhitespaceChar (c : Char) : Bool :=
  c = '\t' ∨ c = '\n' ∨ c = '\x0b' ∨ c = '\x0c' ∨ c = '\r' ∨ c = ' ' ∨
  c.toNat = 0x85 ∨ c.toNat = 0xa0 ∨ c.toNat = 0x1680 ∨
  (0x2000 ≤ c.toNat ∧ c.toNat ≤ 0x200a) ∨ c.toNat = 0x2028 ∨ c.toNat = 0x2029 ∨
  c.toNat = 0x202f ∨ c.toNat = 0x205f ∨ c.toNat = 0x3000

/-- The zero code point of every block of Unicode decimal digits (general
category `Nd`), from the Unicode database CPython ships: each block is
ten consecutive code points with digit values 0-9, and `int()` accepts
any of them as that digit. -/
def unicodeDecimalZeros : List Nat :=
  [0x30, 0x660, 0x6f0, 0x7c0, 0x966, 0x9e6, 0xa66, 0xae6, 0xb66, 0xbe6,
   0xc66, 0xce6, 0xd66, 0xde6, 0xe50, 0xed0, 0xf20, 0x1040, 0x1090, 0x17e0,
   0x1810, 0x1946, 0x19d0, 0x1a80, 0x1a90, 0x1b50, 0x1bb0, 0x1c40, 0x1c50,
   0xa620, 0xa8d0, 0xa900, 0xa9d0, 0xa9f0, 0xaa50, 0xabf0, 0xff10,
   0x104a0, 0x10d30, 0x11066, 0x110f0, 0x11136, 0x111d0, 0x112f0, 0x11450,
   0x114d0, 0x11650, 0x116c0, 0x11730, 0x118e0, 0x11950, 0x11c50, 0x11d50,
   0x11da0, 0x16a60, 0x16ac0, 0x16b50, 0x1d7ce, 0x1d7d8, 0x1d7e2, 0x1d7ec,
   0x1d7f6, 0x1e140, 0x1e2f0, 0x1e950, 0x1fbf0]

/-- Value of one character as a base-16 digit for Python's `int(s, 16)`:
the ASCII letters `a`-`f`/`A`-`F`, or any Unicode decimal digit (digit
value 0-9, e.g. the fullwidth `４` or the Arabic-Indic digits). -/
def pyIntHexDigitVal? (c : Char) : Option Nat :=
  if 'a' ≤ c ∧ c ≤ 'f' then some (c.toNat - 'a'.toNat + 10)
  else if 'A' ≤ c ∧ c ≤ 'F' then some (c.toNat - 'A'.toNat + 10)
  else
    match unicodeDecimalZeros.find? (fun s => decide (s ≤ c.toNat ∧ c.toNat < s + 10)) with
    | some s => some (c.toNat - s)
    | none => none

/-- Model of Python's `int(s, 16)` restricted to the two-character slices
on which `parse_message` uses it: after stripping whitespace around the
number, what remains must be an optional ASCII sign followed by one or
two base-16 digits, so for two characters the accepted forms are two
digits, or one digit preceded or followed by a whitespace character or
preceded by a sign.  Every other two-character string (and any string
of a different length, which cannot arise for the slices of a payload
of length ≥ 24) raises `ValueError` in Python, modelled as `none`. -/
def pyIntHex2 : List Char → Option Int
  | [a, b] =>
    if pyWhitespaceChar a then (pyIntHexDigitVal? b).map (fun v => (v : Int))
    else if pyWhitespaceChar b then (pyIntHexDigitVal? a).map (fun v => (v : Int))
    else if a = '+' then (pyIntHexDigitVal? b).map (fun v => (v : Int))
    else if a = '-' then (pyIntHexDigitVal? b).map (fun v => -(v : Int))
    else
      match pyIntHexDigitVal? a, pyIntHexDigitVal? b with
      | some hi, some lo => some ((16 * hi + lo : Nat) : Int)
      | _, _ => none
  | _ => none

/-- Lower-case hex digit character for a value below 16, as produced by
Python's `x` format conversion. -/
def hexChar (n : Nat) : Char :=
  if n < 10 then Char.ofNat ('0'.toNat + n) else Char.ofNat ('a'.toNat + (n - 10))

/-- Fuel-indexed hex digit expansion (most significant digit first). -/
def natToHexAux : Nat → Nat → List Char
  | 0, _ => []
  | fuel + 1, n =>
    if n < 16 then [hexChar n] else natToHexAux fuel (n / 16) ++ [hexChar (n % 16)]

/-- Lower-case hex representation of a natural number, without leading
zeros (and `"0"` for zero); `n + 1` units of fuel always suffice. -/
def natToHex (n : Nat) : List Char :=
  natToHexAux (n + 1) n

/-- Model of Python's `f"{n:02x}"`: hex digits padded to width two; for a
negative value the sign is emitted and counts towards the width. -/
def pyFormat02x (n : Int) : List Char :=
  if n < 0 then '-' :: natToHex (-n).toNat
  else
    let ds := natToHex n.toNat
    if ds.length = 1 then '0' :: ds else ds

/-- `ACK_DATA` from `vcm_protocol.py`. -/
def ACK_DATA : List Char := "02700000".toList

/-- `VCMMessage` from `vcm_protocol.py`: a parsed VCM protocol message. -/
structure VCMMessage where
  header : List Char
  length : Int
  subheader : List Char
  sequence : Int
  data : List Char
deriving DecidableEq

/-- `VCMMessage.raw`: reconstruct the raw hex payload. -/
def VCMMessage.raw (m : VCMMessage) : List Char :=
  m.header ++ pyFormat02x m.length ++ m.subheader ++ pyFormat02x m.sequence ++ m.data

/-- `VCMMessage.is_ack`: the data equals the ACK sentinel. -/
def VCMMessage.is_ack (m : VCMMessage) : Bool :=
  m.data = ACK_DATA

/-- `VCMMessage.is_request`: the data starts with `0200` or `0202`. -/
def VCMMessage.is_request (m : VCMMessage) : Bool :=
  ("0200".toList).isPrefixOf m.data || ("0202".toList).isPrefixOf m.data

/-- `VCMMessage.is_response`: the data starts with `0204`. -/
def VCMMessage.is_response (m : VCMMessage) : Bool :=
  ("0204".toList).isPrefixOf m.data

/-- `VCMMessage.is_broadcast`: the data starts with `0205`. -/
def VCMMessage.is_broadcast (m : VCMMessage) : Bool :=
  ("0205".toList).isPrefixOf m.data

/-- `parse_message` from `vcm_protocol.py`.  The fixed-width fields are
sliced out of the payload; only the length byte and the sequence byte go
through `int(s, 16)`, whose `ValueError` is the only exception the
enclosing `try` can see (modelled as `none`), so the header, subheader
and data slices are carried through with no hex validation. -/
def parse_message (payload_hex : List Char) : Option VCMMessage :=
  if payload_hex.length < 24 then
    none
  else
    match pyIntHex2 ((payload_hex.drop 14).take 2),
          pyIntHex2 ((payload_hex.drop 22).take 2) with
    | some length, some sequence =>
        some { header := payload_hex.take 14
               length := length
               subheader := (payload_hex.drop 16).take 6
               sequence := sequence
               data := payload_hex.drop 24 }
    | _, _ => none

/-- `create_message` from `vcm_protocol.py`: build a message with the
length computed as subheader (3) + sequence (1) + data bytes. -/
def create_message (header subheader : List Char) (sequence : Int) (data : List Char) :
    VCMMessage :=
  { header := header
    length := ((3 + 1 + data.length / 2 : Nat) : Int)
    subheader := subheader
    sequence := sequence
    data := data }

/-- `create_ack` from `vcm_protocol.py`. -/
def create_ack (original : VCMMessage) : VCMMessage :=
  create_message original.header original.subheader original.sequence ACK_DATA

/-- `create_response` from `vcm_protocol.py`. -/
def create_response (original : VCMMessage) (response_data : List Char) : VCMMessage :=
  create_message original.header original.subheader original.sequence response_data

/-- `create_broadcast` from `vcm_protocol.py` (sequence 0). -/
def create_broadcast (header subheader data : List Char) : VCMMessage :=
  create_message header subheader 0 data

/-- `create_request_to_ihu` from `vcm_protocol.py`. -/
def create_request_to_ihu (header subheader : List Char) (sequence : Int) (data : List Char) :
    VCMMessage :=
  create_message header subheader sequence data

-- Header templates from class `Headers` (several are written in the
-- source as a 16-character literal truncated with `[:14]`).
namespace Headers

def A4_04_0D : List Char := "00a4040d000000".toList

def A3_03_0F : List Char := "00a3030f000000".toList

def A4_04_00 : List Char := ("00a4040000000000".toList).take 14

def A3_03_08 : List Char := ("00a3030800000000".toList).take 14

def A3_03_0A : List Char := ("00a3030a00000000".toList).take 14

def A3_03_11 : List Char := ("00a3031100000000".toList).take 14

def A3_03_10 : List Char := ("00a3031000000000".toList).take 14

def A4_04_08 : List Char := ("00a4040800000000".toList).take 14

def A4_04_02 : List Char := ("00a4040200000000".toList).take 14

def AA_0A_01 : List Char := ("00aa0a0100000000".toList).take 14

def AA_0A_07 : List Char := ("00aa0a0700000000".toList).take 14

def AB_0B_01 : List Char := ("00ab0b0100000000".toList).take 14

end Headers

-- Subheaders from class `Subheaders`.
namespace Subheaders

def PING_0D : List Char := "a40d00".toList

def PING_0F : List Char := "a30f00".toList

def SETUP_TRIGGER : List Char := "a40002".toList

def SETUP_11 : List Char := "a31102".toList

def SETUP_10 : List Char := "a31002".toList

def SETUP_08 : List Char := "a30802".toList

def STATUS_0A : List Char := "a30a05".toList

def STATUS_00 : List Char := "a40005".toList

def WIFI_SCAN : List Char := "a40d05".toList

def WIFI_PASSWORD : List Char := "a40802".toList

def WIFI_STATUS : List Char := "a40805".toList

def WIFI_FINAL : List Char := "a40205".toList

def CONN_AA01 : List Char := "aa0105".toList

def CONN_AA07 : List Char := "aa0705".toList

def CONN_AB01 : List Char := "ab0105".toList

end Subheaders

-- Message data patterns from class `StandardMessages`.
namespace StandardMessages

def REQUEST_BASIC : List Char := "02000000".toList

def REQUEST_20 : List Char := "0202000020".toList

def REQUEST_80 : List Char := "0202000080".toList

def REQUEST_00 : List Char := "0202000000".toList

def RESPONSE_00 : List Char := "020400000000".toList

def RESPONSE_SHORT : List Char := "0204000000".toList

def RESPONSE_20 : List Char := "0204000020".toList

def RESPONSE_80 : List Char := "0204000080".toList

def BROADCAST_00 : List Char := "0205000000".toList

def BROADCAST_20 : List Char := "0205000020".toList

def BROADCAST_40 : List Char := "0205000040".toList

def BROADCAST_80 : List Char := "0205000080".toList

def WIFI_CONNECTING : List Char := "02e0000048".toList

def SSID_SCANNING : List Char := "0205000000833a32b9ba30b9baa0".toList

def SSID_CONNECTED : List Char := "0205000040a33a32b9ba30b9b8b0".toList

end StandardMessages

/-- The six ASCII whitespace characters, `Py_ISSPACE`: what `bytes.fromhex`
skips between bytes (since Python 3.7; verified against CPython). -/
def asciiSpaceChar (c : Char) : Bool :=
  c = '\t' ∨ c = '\n' ∨ c = '\x0b' ∨ c = '\x0c' ∨ c = '\r' ∨ c = ' '

/-- Model of Python's `bytes.fromhex`: pairs of ASCII hex digits, with any
ASCII whitespace permitted between bytes (but not inside one); any other
character, non-ASCII whitespace or digits included, or a dangling single
digit, raises `ValueError`, modelled as `none`. -/
def bytesFromHex? : List Char → Option (List Nat)
  | [] => some []
  | a :: rest =>
    if asciiSpaceChar a then
      bytesFromHex? rest
    else
      match rest with
      | b :: rest2 =>
        match hexDigitVal? a, hexDigitVal? b with
        | some hi, some lo => (bytesFromHex? rest2).map (fun bs => (16 * hi + lo) :: bs)
        | _, _ => none
      | [] => none

/-- Legal second-byte range of a UTF-8 sequence, which depends on the lead
byte (overlong encodings and surrogate code points excluded). -/
def utf8ContOk (b c : Nat) : Bool :=
  if b = 0xe0 then 0xa0 ≤ c ∧ c ≤ 0xbf
  else if b = 0xed then 0x80 ≤ c ∧ c ≤ 0x9f
  else if b = 0xf0 then 0x90 ≤ c ∧ c ≤ 0xbf
  else if b = 0xf4 then 0x80 ≤ c ∧ c ≤ 0x8f
  else 0x80 ≤ c ∧ c ≤ 0xbf

/-- The Unicode replacement character U+FFFD. -/
def utf8Replacement : Char := Char.ofNat 0xFFFD

/-- A UTF-8 continuation byte. -/
def utf8ContByte (b : Nat) : Bool :=
  0x80 ≤ b ∧ b ≤ 0xbf

/-- Model of lossy UTF-8 decoding, `bytes.decode("utf-8", errors="replace")`:
valid sequences decode to their code point, and each maximal invalid
subpart — the longest prefix of a valid sequence that cannot be
continued, or a single invalid byte — becomes one replacement character,
so decoding never fails (the maximal-subpart granularity is CPython's,
verified on truncated and out-of-range sequences).  The fuel argument
makes the recursion structural; one unit per decoded unit always
suffices, and the caller passes the byte count. -/
def utf8DecodeReplaceAux : Nat → List Nat → List Char
  | 0, _ => []
  | _, [] => []
  | fuel + 1, b :: rest =>
    if b < 0x80 then
      Char.ofNat b :: utf8DecodeReplaceAux fuel rest
    else if 0xc2 ≤ b ∧ b ≤ 0xdf then
      match rest with
      | c :: rest2 =>
        if utf8ContByte c then
          Char.ofNat ((b - 0xc0) * 0x40 + (c - 0x80)) :: utf8DecodeReplaceAux fuel rest2
        else
          utf8Replacement :: utf8DecodeReplaceAux fuel rest
      | [] => [utf8Replacement]
    else if 0xe0 ≤ b ∧ b ≤ 0xef then
      match rest with
      | c :: rest2 =>
        if utf8ContOk b c then
          match rest2 with
          | d :: rest3 =>
            if utf8ContByte d then
              Char.ofNat ((b % 0x10) * 0x1000 + (c - 0x80) * 0x40 + (d - 0x80)) ::
                utf8DecodeReplaceAux fuel rest3
            else
              utf8Replacement :: utf8DecodeReplaceAux fuel rest2
          | [] => [utf8Replacement]
        else
          utf8Replacement :: utf8DecodeReplaceAux fuel rest
      | [] => [utf8Replacement]
    else if 0xf0 ≤ b ∧ b ≤ 0xf4 then
      match rest with
      | c :: rest2 =>
        if utf8ContOk b c then
          match rest2 with
          | d :: rest3 =>
            if utf8ContByte d then
              match rest3 with
              | e :: rest4 =>
                if utf8ContByte e then
                  Char.ofNat ((b - 0xf0) * 0x40000 + (c - 0x80) * 0x1000 +
                      (d - 0x80) * 0x40 + (e - 0x80)) :: utf8DecodeReplaceAux fuel rest4
                else
                  utf8Replacement :: utf8DecodeReplaceAux fuel rest3
              | [] => [utf8Replacement]
            else
              utf8Replacement :: utf8DecodeReplaceAux fuel rest2
          | [] => [utf8Replacement]
        else
          utf8Replacement :: utf8DecodeReplaceAux fuel rest
      | [] => [utf8Replacement]
    else
      utf8Replacement :: utf8DecodeReplaceAux fuel rest

/-- Lossy UTF-8 decoding packaged as a `String`. -/
def utf8DecodeReplace (bs : List Nat) : String :=
  ⟨utf8DecodeReplaceAux bs.length bs⟩

/-- `decode_wifi_password_message` from `vcm_protocol.py`: decode the WiFi
password from an IHU message whose data is `02020000` + length byte +
text + extra bytes.  The bare `except` that swallows every exception of
the slicing/decoding block is modelled by the `none` branches. -/
def decode_wifi_password_message (msg : VCMMessage) : Option String × Option (List Nat) :=
  if ("02020000".toList).isPrefixOf msg.data then
    match bytesFromHex? (msg.data.drop 8) with
    | none => (none, none)
    | some data_bytes =>
      if data_bytes.length < 1 then (none, none)
      else
        let str_len := data_bytes.headD 0
        if data_bytes.length < 1 + str_len then (none, none)
        else
          (some (utf8DecodeReplace ((data_bytes.drop 1).take str_len)),
           if 1 + str_len < data_bytes.length then some (data_bytes.drop (1 + str_len))
           else none)
  else (none, none)

/-- `VCMState` from `vcm_state_machine.py`. -/
inductive VCMState where
  | IDLE
  | HANDSHAKE
  | SETUP
  | WIFI_SCANNING
  | WIFI_CONNECTING
  | WIFI_CONNECTED
deriving DecidableEq

/-- `VCMContext` from `vcm_state_machine.py` (the `send_callback` I/O hook
is not data and is omitted). -/
structure VCMContext where
  state : VCMState
  last_ihu_sequence : Int
  next_vcm_sequence : Int
  setup_sequence : Int
  setup_trigger_msg : Option VCMMessage
  wifi_ssid : String
  wifi_password : String
  wifi_connected : Bool
  last_broadcast_time : ℚ
  broadcast_interval : ℚ
  pending_responses : List VCMMessage
deriving DecidableEq

/-- `VCMContext.get_next_sequence`: return the next VCM-initiated sequence
number and advance the counter mod 256 (Python `%` on a positive modulus
agrees with `Int.emod`). -/
def VCMContext.get_next_sequence (ctx : VCMContext) : Int × VCMContext :=
  (ctx.next_vcm_sequence,
   { ctx with next_vcm_sequence := (ctx.next_vcm_sequence + 1) % 256 })

/-- The `VCMStateMachine` object: its context plus the private tracking
attributes set in `__init__` (and the two write-only attributes created
later by the WiFi handlers). -/
structure VCMStateMachine where
  ctx : VCMContext
  handshake_count : Nat
  handshake_messages_seen : List (List Char)
  setup_phase : Nat
  awaiting_ihu_response : Bool
  wifi_connect_sequence : Option Int
  connection_complete_seq : Option Int
deriving DecidableEq

/-- A freshly constructed `VCMStateMachine()` with the dataclass defaults
of `VCMContext`. -/
def initMachine : VCMStateMachine :=
  { ctx :=
      { state := .IDLE
        last_ihu_sequence := 0
        next_vcm_sequence := 0x50
        setup_sequence := 0
        setup_trigger_msg := none
        wifi_ssid := "testas"
        wifi_password := ""
        wifi_connected := false
        last_broadcast_time := 0
        broadcast_interval := 5
        pending_responses := [] }
    handshake_count := 0
    handshake_messages_seen := []
    setup_phase := 0
    awaiting_ihu_response := false
    wifi_connect_sequence := none
    connection_complete_seq := none }

/-- `VCMStateMachine._handle_idle`: answer handshake pings, track their
subheaders (a Python `set`, modelled by duplicate-free `List.insert`) and
their count, and transition to `HANDSHAKE` once two distinct ping
subheaders and at least two pings have been seen. -/
def VCMStateMachine.handle_idle (m : VCMStateMachine) (msg : VCMMessage) :
    List VCMMessage × VCMStateMachine :=
  if msg.subheader = Subheaders.PING_0D ∨ msg.subheader = Subheaders.PING_0F then
    let r2 :=
      if msg.subheader = Subheaders.PING_0D then
        create_response msg StandardMessages.RESPONSE_00
      else
        create_response msg StandardMessages.RESPONSE_SHORT
    let seen := m.handshake_messages_seen.insert msg.subheader
    let count := m.handshake_count + 1
    let st := if 2 ≤ seen.length ∧ 2 ≤ count then VCMState.HANDSHAKE else m.ctx.state
    ([create_ack msg, r2],
     { m with
        ctx := { m.ctx with state := st }
        handshake_messages_seen := seen
        handshake_count := count })
  else ([], m)

/-- `VCMStateMachine._initiate_setup_sequence`: issue the first setup
request (`a31102`) with a freshly drawn sequence number. -/
def VCMStateMachine.initiate_setup_sequence (m : VCMStateMachine) :
    List VCMMessage × VCMStateMachine :=
  let sq := m.ctx.get_next_sequence
  ([create_request_to_ihu (("00a3031100000000".toList).take 14) Subheaders.SETUP_11 sq.1
      StandardMessages.REQUEST_00],
   { m with ctx := sq.2 })

/-- `VCMStateMachine._handle_handshake`: keep answering pings; on the setup
trigger (`a40002` with data `0202000020`) remember the trigger message
and its sequence, move to `SETUP` with sub-phase 0, and start the setup
sequence. -/
def VCMStateMachine.handle_handshake (m : VCMStateMachine) (msg : VCMMessage) :
    List VCMMessage × VCMStateMachine :=
  if msg.subheader = Subheaders.PING_0D ∨ msg.subheader = Subheaders.PING_0F then
    let r2 :=
      if msg.subheader = Subheaders.PING_0D then
        create_response msg StandardMessages.RESPONSE_00
      else
        create_response msg StandardMessages.RESPONSE_SHORT
    ([create_ack msg, r2], m)
  else if msg.subheader = Subheaders.SETUP_TRIGGER ∧ msg.data = StandardMessages.REQUEST_20 then
    let m1 :=
      { m with
          ctx := { m.ctx with
                    setup_trigger_msg := some msg
                    setup_sequence := msg.sequence
                    state := VCMState.SETUP }
          setup_phase := 0 }
    let pr := m1.initiate_setup_sequence
    (create_ack msg :: pr.1, pr.2)
  else ([], m)

/-- `VCMStateMachine._send_setup_phase`: messages for one setup phase.  A
sequence number is drawn unconditionally at the top (and for phase 3 a
second one is drawn for the flagged repeat request, leaving the first
unused). -/
def VCMStateMachine.send_setup_phase (m : VCMStateMachine) (phase : Nat) :
    List VCMMessage × VCMStateMachine :=
  let sq := m.ctx.get_next_sequence
  let m1 := { m with ctx := sq.2 }
  if phase = 1 then
    ([create_request_to_ihu (("00a3031000000000".toList).take 14) Subheaders.SETUP_10 sq.1
        StandardMessages.REQUEST_00], m1)
  else if phase = 2 then
    ([create_request_to_ihu Headers.A3_03_08 Subheaders.SETUP_08 sq.1
        StandardMessages.REQUEST_00], m1)
  else if phase = 3 then
    let b1 := create_broadcast Headers.A3_03_0A Subheaders.STATUS_0A StandardMessages.BROADCAST_00
    let b2 := create_broadcast (("00a4040000000000".toList).take 14) Subheaders.STATUS_00
      StandardMessages.BROADCAST_20
    let sq2 := m1.ctx.get_next_sequence
    ([b1, b2,
      create_request_to_ihu Headers.A3_03_08 Subheaders.SETUP_08 sq2.1
        StandardMessages.REQUEST_80],
     { m1 with ctx := sq2.2 })
  else ([], m1)

/-- `VCMStateMachine._complete_setup`: emit the final status broadcast and
(if the trigger message was stored) the completion response, then move to
`WIFI_SCANNING` and arm the broadcast timer with the current time. -/
def VCMStateMachine.complete_setup (m : VCMStateMachine) (now : ℚ) :
    List VCMMessage × VCMStateMachine :=
  let b := create_broadcast (("00a4040000000000".toList).take 14) Subheaders.STATUS_00
    StandardMessages.BROADCAST_20
  let responses :=
    match m.ctx.setup_trigger_msg with
    | some trigger => [b, create_response trigger StandardMessages.RESPONSE_20]
    | none => [b]
  (responses,
   { m with ctx := { m.ctx with state := VCMState.WIFI_SCANNING, last_broadcast_time := now } })

/-- `VCMStateMachine._handle_setup`: acknowledge IHU responses and walk the
setup sub-phases keyed on the response subheader; the two `a30802`
responses are told apart by the current sub-phase counter. -/
def VCMStateMachine.handle_setup (m : VCMStateMachine) (now : ℚ) (msg : VCMMessage) :
    List VCMMessage × VCMStateMachine :=
  if msg.is_response then
    let ack := create_ack msg
    if msg.subheader = Subheaders.SETUP_11 then
      let pr := ({ m with setup_phase := 1 } : VCMStateMachine).send_setup_phase 1
      (ack :: pr.1, pr.2)
    else if msg.subheader = Subheaders.SETUP_10 then
      let pr := ({ m with setup_phase := 2 } : VCMStateMachine).send_setup_phase 2
      (ack :: pr.1, pr.2)
    else if msg.subheader = Subheaders.SETUP_08 then
      if m.setup_phase = 2 then
        let pr := ({ m with setup_phase := 3 } : VCMStateMachine).send_setup_phase 3
        (ack :: pr.1, pr.2)
      else if m.setup_phase = 3 then
        let pr := ({ m with setup_phase := 4 } : VCMStateMachine).complete_setup now
        (ack :: pr.1, pr.2)
      else ([ack], m)
    else ([ack], m)
  else ([], m)

/-- `VCMStateMachine._start_wifi_connection`: the fixed burst of connecting
status, broadcasts, the password-accepted response, connection info, WiFi
status, and the final confirmation request with a fresh sequence number
remembered in `_connection_complete_seq`. -/
def VCMStateMachine.start_wifi_connection (m : VCMStateMachine) (password_msg : VCMMessage) :
    List VCMMessage × VCMStateMachine :=
  let r1 := create_response password_msg StandardMessages.WIFI_CONNECTING
  let r2 := create_broadcast Headers.A3_03_0A Subheaders.STATUS_0A StandardMessages.BROADCAST_80
  let r3 := create_message Headers.A4_04_08 Subheaders.WIFI_PASSWORD password_msg.sequence
    ("020400000ce8cae6e8c2e680".toList)
  let r4 := create_broadcast Headers.AA_0A_01 Subheaders.CONN_AA01 StandardMessages.BROADCAST_40
  let r5 := create_broadcast Headers.AA_0A_07 Subheaders.CONN_AA07 StandardMessages.BROADCAST_40
  let r6 := create_broadcast Headers.AB_0B_01 Subheaders.CONN_AB01 StandardMessages.BROADCAST_00
  let r7 := create_broadcast Headers.A4_04_08 Subheaders.WIFI_STATUS
    ("020500000ce8cae6e8c2e680".toList)
  let sq := m.ctx.get_next_sequence
  let r8 := create_request_to_ihu Headers.A3_03_08 Subheaders.SETUP_08 sq.1
    StandardMessages.REQUEST_80
  ([r1, r2, r3, r4, r5, r6, r7, r8],
   { m with ctx := sq.2, connection_complete_seq := some sq.1 })

/-- `VCMStateMachine._handle_wifi_scanning`: answer keep-alive pings; on a
WiFi password request store the decoded password when it is non-empty
(Python truthiness), remember the request's sequence, move to
`WIFI_CONNECTING` and run the connection burst. -/
def VCMStateMachine.handle_wifi_scanning (m : VCMStateMachine) (msg : VCMMessage) :
    List VCMMessage × VCMStateMachine :=
  if msg.subheader = Subheaders.PING_0D ∨ msg.subheader = Subheaders.PING_0F then
    let r2 :=
      if msg.subheader = Subheaders.PING_0D then
        create_response msg StandardMessages.RESPONSE_00
      else
        create_response msg StandardMessages.RESPONSE_SHORT
    ([create_ack msg, r2], m)
  else if msg.subheader = Subheaders.WIFI_PASSWORD ∧ msg.is_request then
    let ctx1 :=
      match (decode_wifi_password_message msg).1 with
      | some s => if s = "" then m.ctx else { m.ctx with wifi_password := s }
      | none => m.ctx
    let m1 :=
      { m with
          ctx := { ctx1 with state := VCMState.WIFI_CONNECTING }
          wifi_connect_sequence := some msg.sequence }
    let pr := m1.start_wifi_connection msg
    (create_ack msg :: pr.1, pr.2)
  else ([], m)

/-- `VCMStateMachine._handle_wifi_connecting`: on the IHU's `a30802`
response, acknowledge, emit the final status broadcast, set the connected
flag, move to `WIFI_CONNECTED` and arm the broadcast timer. -/
def VCMStateMachine.handle_wifi_connecting (m : VCMStateMachine) (now : ℚ) (msg : VCMMessage) :
    List VCMMessage × VCMStateMachine :=
  if msg.subheader = Subheaders.SETUP_08 ∧ msg.is_response then
    ([create_ack msg,
      create_broadcast Headers.A4_04_02 Subheaders.WIFI_FINAL ("020500001a".toList)],
     { m with
        ctx := { m.ctx with
                  state := VCMState.WIFI_CONNECTED
                  wifi_connected := true
                  last_broadcast_time := now } })
  else ([], m)

/-- `VCMStateMachine._handle_wifi_connected`: keep answering pings; nothing
else is handled. -/
def VCMStateMachine.handle_wifi_connected (m : VCMStateMachine) (msg : VCMMessage) :
    List VCMMessage × VCMStateMachine :=
  if msg.subheader = Subheaders.PING_0D ∨ msg.subheader = Subheaders.PING_0F then
    let r2 :=
      if msg.subheader = Subheaders.PING_0D then
        create_response msg StandardMessages.RESPONSE_00
      else
        create_response msg StandardMessages.RESPONSE_SHORT
    ([create_ack msg, r2], m)
  else ([], m)

/-- Sequence tracking step of `process_message` (lines 124-125 of
`vcm_state_machine.py`): a nonzero sequence is remembered as the last IHU
sequence. -/
def track_sequence (m : VCMStateMachine) (msg : VCMMessage) : VCMStateMachine :=
  if msg.sequence ≠ 0 then
    { m with ctx := { m.ctx with last_ihu_sequence := msg.sequence } }
  else m

/-- `VCMStateMachine.process_message`: parse; drop unparseable payloads and
ACKs with no effect; track a nonzero IHU sequence; then dispatch on the
current state (the handler table of `__init__` covers all six states). -/
def VCMStateMachine.process_message (m : VCMStateMachine) (now : ℚ) (payload_hex : List Char) :
    List VCMMessage × VCMStateMachine :=
  match parse_message payload_hex with
  | none => ([], m)
  | some msg =>
    if msg.is_ack then ([], m)
    else
      let m1 := track_sequence m msg
      match m1.ctx.state with
      | .IDLE => m1.handle_idle msg
      | .HANDSHAKE => m1.handle_handshake msg
      | .SETUP => m1.handle_setup now msg
      | .WIFI_SCANNING => m1.handle_wifi_scanning msg
      | .WIFI_CONNECTING => m1.handle_wifi_connecting now msg
      | .WIFI_CONNECTED => m1.handle_wifi_connected msg

/-- `VCMStateMachine._create_ssid_broadcast`: the periodic SSID broadcast,
whose data depends on the connection state. -/
def create_ssid_broadcast (state : VCMState) : Option VCMMessage :=
  if state = VCMState.WIFI_SCANNING then
    some (create_message Headers.A4_04_0D Subheaders.WIFI_SCAN 0 StandardMessages.SSID_SCANNING)
  else if state = VCMState.WIFI_CONNECTED then
    some (create_message Headers.A4_04_0D Subheaders.WIFI_SCAN 0 StandardMessages.SSID_CONNECTED)
  else none

/-- `VCMStateMachine.tick`: in the two broadcasting states, once the
broadcast interval has elapsed, reset the timer and emit the (always
present in those states) SSID broadcast; otherwise do nothing. -/
def VCMStateMachine.tick (m : VCMStateMachine) (now : ℚ) :
    List VCMMessage × VCMStateMachine :=
  if m.ctx.state = VCMState.WIFI_SCANNING ∨ m.ctx.state = VCMState.WIFI_CONNECTED then
    if m.ctx.broadcast_interval ≤ now - m.ctx.last_broadcast_time then
      let m1 := { m with ctx := { m.ctx with last_broadcast_time := now } }
      match create_ssid_broadcast m.ctx.state with
      | some b => ([b], m1)
      | none => ([], m1)
    else ([], m)
  else ([], m)

/-- Feed a list of inbound payloads to the machine in order (the datagram
loop of the transport adapter), keeping only the final machine state. -/
def run_messages (m : VCMStateMachine) (now : ℚ) (ps : List (List Char)) : VCMStateMachine :=
  ps.foldl (fun mm p => (mm.process_message now p).2) m

/-- Closed form of the sub-phase update performed by `_handle_setup`:
responses to the `a31102` and `a31002` topics set the phase to their
fixed value unconditionally, a response to `a30802` advances only from
phase 2 or 3, and everything else leaves the phase alone. -/
def setupPhaseStep (msg : VCMMessage) (phase : Nat) : Nat :=
  if msg.is_response then
    if msg.subheader = Subheaders.SETUP_11 then 1
    else if msg.subheader = Subheaders.SETUP_10 then 2
    else if msg.subheader = Subheaders.SETUP_08 then
      if phase = 2 then 3 else if phase = 3 then 4 else phase
    else phase
  else phase

/-- The sixteen lower-case hexadecimal digit characters — the alphabet of
`bytes.hex()`, which is how the transport renders inbound datagrams
before handing them to the state machine. -/
def lowerHexDigits : List Char := "0123456789abcdef".toList

/-- The Context invariant of C10: the connected flag is set exactly in the
`WIFI_CONNECTED` state. -/
def ConnectedFlagInv (m : VCMStateMachine) : Prop :=
  m.ctx.wifi_connected = true ↔ m.ctx.state = VCMState.WIFI_CONNECTED

/-!
Helper lemmas shared by the claim theorems below.
-/

/-- `track_sequence` changes nothing but the remembered IHU sequence. -/
theorem track_sequence_fields (m : VCMStateMachine) (msg : VCMMessage) :
    (track_sequence m msg).ctx.state = m.ctx.state ∧
    (track_sequence m msg).ctx.wifi_connected = m.ctx.wifi_connected ∧
    (track_sequence m msg).ctx.last_broadcast_time = m.ctx.last_broadcast_time ∧
    (track_sequence m msg).setup_phase = m.setup_phase ∧
    (track_sequence m msg).handshake_count = m.handshake_count ∧
    (track_sequence m msg).handshake_messages_seen = m.handshake_messages_seen := by
  unfold track_sequence
  split <;> simp

/-- An unparseable payload is discarded: no responses, machine unchanged. -/
theorem process_message_parse_none (m : VCMStateMachine) (now : ℚ) (p : List Char)
    (hp : parse_message p = none) : m.process_message now p = ([], m) := by
  unfold VCMStateMachine.process_message
  rw [hp]

/-- An acknowledgment is discarded before sequence tracking and dispatch:
no responses, machine unchanged. -/
theorem process_message_ack (m : VCMStateMachine) (now : ℚ) (p : List Char)
    (msg : VCMMessage) (hp : parse_message p = some msg) (hack : msg.is_ack = true) :
    m.process_message now p = ([], m) := by
  unfold VCMStateMachine.process_message
  rw [hp]
  simp [hack]

/-- Processing a parseable non-ACK message reduces to sequence tracking
followed by the handler of the current state. -/
theorem process_message_some (m : VCMStateMachine) (now : ℚ) (p : List Char)
    (msg : VCMMessage) (hp : parse_message p = some msg) (hna : msg.is_ack = false) :
    m.process_message now p =
      (match (track_sequence m msg).ctx.state with
       | .IDLE => (track_sequence m msg).handle_idle msg
       | .HANDSHAKE => (track_sequence m msg).handle_handshake msg
       | .SETUP => (track_sequence m msg).handle_setup now msg
       | .WIFI_SCANNING => (track_sequence m msg).handle_wifi_scanning msg
       | .WIFI_CONNECTING => (track_sequence m msg).handle_wifi_connecting now msg
       | .WIFI_CONNECTED => (track_sequence m msg).handle_wifi_connected msg) := by
  unfold VCMStateMachine.process_message
  rw [hp]
  simp [hna]

/-!
Claim C1.
-/

/-- C1: for every parseable inbound message that is an acknowledgment (data
equal to the sentinel `02700000`), `process_message` returns the empty
list in every one of the six states — the machine `m` here is arbitrary,
so its state ranges over all six — and the machine is returned untouched,
so no state handler is ever given an acknowledgment. -/
theorem C1_ack_never_answered (m : VCMStateMachine) (now : ℚ) (p : List Char)
    (msg : VCMMessage) (hp : parse_message p = some msg) (hack : msg.is_ack = true) :
    m.process_message now p = ([], m) := by
  exact process_message_ack m now p msg hp hack

/-- Witness for C1 at a concrete acknowledgment payload from the captured
traffic, processed by the freshly initialised machine. -/
theorem C1_ack_never_answered_witness :
    initMachine.process_message 0 ("00a4040d00000008a40d002802700000".toList) =
      ([], initMachine) := by
  exact C1_ack_never_answered initMachine 0 _
    { header := "00a4040d000000".toList
      length := 8
      subheader := "a40d00".toList
      sequence := 0x28
      data := "02700000".toList }
    (by rfl) (by rfl)

/-!
Claim C4.  `parse_message` only hex-decodes the length byte and the
sequence byte, so "non-hex-decodable content" is rejected only when it
falls in one of those two fields; non-hex characters in the header,
subheader or data positions survive parsing and can reach a state
handler.
-/

/-- Counterexample to C4 as stated: a payload whose header consists of the
non-hex character `z` (so the input contains non-hex-decodable content)
still parses, and in the initial state it produces two response messages
and changes the Context (the remembered IHU sequence becomes 1). -/
theorem C4_counterexample :
    ('z' ∈ ("zzzzzzzzzzzzzz10a40d000102000000".toList) ∧ hexDigitVal? 'z' = none) ∧
    (initMachine.process_message 0 ("zzzzzzzzzzzzzz10a40d000102000000".toList)).1 ≠ [] ∧
    (initMachine.process_message 0 ("zzzzzzzzzzzzzz10a40d000102000000".toList)).2.ctx ≠
      initMachine.ctx := by
  exact ⟨by decide, by decide, by decide⟩

/-- C4 amended: an input shorter than the 12-byte fixed prefix (24 hex
characters), or whose length-byte field or sequence-byte field is not
integer-parseable, fails to parse, so `process_message` returns the
empty list and returns the machine — hence every field of the Context —
unchanged.  Non-hex content in the other positions does not cause
rejection. -/
theorem C4_malformed_discarded (m : VCMStateMachine) (now : ℚ) (p : List Char)
    (h : p.length < 24 ∨ pyIntHex2 ((p.drop 14).take 2) = none ∨
         pyIntHex2 ((p.drop 22).take 2) = none) :
    m.process_message now p = ([], m) := by
  have hp : parse_message p = none := by
    unfold parse_message
    by_cases hlen : p.length < 24
    · simp [hlen]
    · rcases h with h | h | h
      · exact absurd h hlen
      · simp [hlen, h]
      · cases hA : pyIntHex2 ((p.drop 14).take 2) <;> simp [hlen, hA, h]
  unfold VCMStateMachine.process_message
  rw [hp]

/-- Witness for C4 amended at the undersized payload `00a404` from the
test suite. -/
theorem C4_malformed_discarded_witness :
    initMachine.process_message 0 ("00a404".toList) = ([], initMachine) := by
  exact C4_malformed_discarded initMachine 0 _ (Or.inl (by decide))

/-!
Per-handler effect lemmas: which Context fields each state handler can
touch.  They feed the sequence-tracking claim (C3), the connected-flag
invariant (C10) and the state-transition claims.
-/

/-- `_handle_idle` can only move the state to `HANDSHAKE` and touches
neither the remembered IHU sequence nor the WiFi fields. -/
theorem handle_idle_effects (m : VCMStateMachine) (msg : VCMMessage) :
    (m.handle_idle msg).2.ctx.last_ihu_sequence = m.ctx.last_ihu_sequence ∧
    (m.handle_idle msg).2.ctx.wifi_connected = m.ctx.wifi_connected ∧
    (m.handle_idle msg).2.ctx.last_broadcast_time = m.ctx.last_broadcast_time ∧
    ((m.handle_idle msg).2.ctx.state = m.ctx.state ∨
      (m.handle_idle msg).2.ctx.state = VCMState.HANDSHAKE) := by
  unfold VCMStateMachine.handle_idle
  split
  · refine ⟨by simp, by simp, by simp, ?_⟩
    have hst : (if 2 ≤ (m.handshake_messages_seen.insert msg.subheader).length ∧
          2 ≤ m.handshake_count + 1 then VCMState.HANDSHAKE else m.ctx.state) = m.ctx.state ∨
        (if 2 ≤ (m.handshake_messages_seen.insert msg.subheader).length ∧
          2 ≤ m.handshake_count + 1 then VCMState.HANDSHAKE else m.ctx.state) =
          VCMState.HANDSHAKE := by
      by_cases hc : 2 ≤ (m.handshake_messages_seen.insert msg.subheader).length ∧
          2 ≤ m.handshake_count + 1
      · right
        rw [if_pos hc]
      · left
        rw [if_neg hc]
    simpa using hst
  · simp

/-- `_handle_handshake` can only move the state to `SETUP` and touches
neither the remembered IHU sequence nor the WiFi fields. -/
theorem handle_handshake_effects (m : VCMStateMachine) (msg : VCMMessage) :
    (m.handle_handshake msg).2.ctx.last_ihu_sequence = m.ctx.last_ihu_sequence ∧
    (m.handle_handshake msg).2.ctx.wifi_connected = m.ctx.wifi_connected ∧
    (m.handle_handshake msg).2.ctx.last_broadcast_time = m.ctx.last_broadcast_time ∧
    ((m.handle_handshake msg).2.ctx.state = m.ctx.state ∨
      (m.handle_handshake msg).2.ctx.state = VCMState.SETUP) := by
  unfold VCMStateMachine.handle_handshake VCMStateMachine.initiate_setup_sequence
    VCMContext.get_next_sequence
  split
  · simp
  · split
    · exact ⟨by simp, by simp, by simp, Or.inr (by simp)⟩
    · simp

/-- `_send_setup_phase` only draws sequence numbers: the state, the phase
and the tracked fields are untouched. -/
theorem send_setup_phase_effects (m : VCMStateMachine) (phase : Nat) :
    (m.send_setup_phase phase).2.ctx.last_ihu_sequence = m.ctx.last_ihu_sequence ∧
    (m.send_setup_phase phase).2.ctx.wifi_connected = m.ctx.wifi_connected ∧
    (m.send_setup_phase phase).2.ctx.last_broadcast_time = m.ctx.last_broadcast_time ∧
    (m.send_setup_phase phase).2.ctx.state = m.ctx.state ∧
    (m.send_setup_phase phase).2.setup_phase = m.setup_phase := by
  unfold VCMStateMachine.send_setup_phase VCMContext.get_next_sequence
  split
  · simp
  · split
    · simp
    · split
      · simp
      · simp

/-- Complete description of `_handle_setup` on the tracked fields: the
sub-phase follows `setupPhaseStep`, and exactly the second `a30802`
response (current phase 3) completes setup, moving to `WIFI_SCANNING`
and arming the broadcast timer with the current time. -/
theorem handle_setup_spec (m : VCMStateMachine) (now : ℚ) (msg : VCMMessage) :
    (m.handle_setup now msg).2.ctx.last_ihu_sequence = m.ctx.last_ihu_sequence ∧
    (m.handle_setup now msg).2.ctx.wifi_connected = m.ctx.wifi_connected ∧
    (m.handle_setup now msg).2.setup_phase = setupPhaseStep msg m.setup_phase ∧
    ((m.handle_setup now msg).2.ctx.state =
      if msg.is_response = true ∧ msg.subheader = Subheaders.SETUP_08 ∧ m.setup_phase = 3
      then VCMState.WIFI_SCANNING else m.ctx.state) ∧
    ((m.handle_setup now msg).2.ctx.last_broadcast_time =
      if msg.is_response = true ∧ msg.subheader = Subheaders.SETUP_08 ∧ m.setup_phase = 3
      then now else m.ctx.last_broadcast_time) := by
  have h11ne08 : Subheaders.SETUP_11 ≠ Subheaders.SETUP_08 := by decide
  have h10ne08 : Subheaders.SETUP_10 ≠ Subheaders.SETUP_08 := by decide
  unfold VCMStateMachine.handle_setup
  by_cases hresp : msg.is_response = true
  · rw [if_pos hresp]
    by_cases h11 : msg.subheader = Subheaders.SETUP_11
    · have hne : ¬ (msg.is_response = true ∧ msg.subheader = Subheaders.SETUP_08 ∧
          m.setup_phase = 3) := fun hc => h11ne08 (h11 ▸ hc.2.1)
      obtain ⟨e1, e2, e3, e4, e5⟩ :=
        send_setup_phase_effects ({ m with setup_phase := 1 } : VCMStateMachine) 1
      rw [if_pos h11]
      exact ⟨by simpa using e1, by simpa using e2,
        by rw [setupPhaseStep, if_pos hresp, if_pos h11]; simpa using e5,
        by rw [if_neg hne]; simpa using e4,
        by rw [if_neg hne]; simpa using e3⟩
    · rw [if_neg h11]
      by_cases h10 : msg.subheader = Subheaders.SETUP_10
      · have hne : ¬ (msg.is_response = true ∧ msg.subheader = Subheaders.SETUP_08 ∧
            m.setup_phase = 3) := fun hc => h10ne08 (h10 ▸ hc.2.1)
        obtain ⟨e1, e2, e3, e4, e5⟩ :=
          send_setup_phase_effects ({ m with setup_phase := 2 } : VCMStateMachine) 2
        rw [if_pos h10]
        exact ⟨by simpa using e1, by simpa using e2,
          by rw [setupPhaseStep, if_pos hresp, if_neg h11, if_pos h10]; simpa using e5,
          by rw [if_neg hne]; simpa using e4,
          by rw [if_neg hne]; simpa using e3⟩
      · rw [if_neg h10]
        by_cases h08 : msg.subheader = Subheaders.SETUP_08
        · rw [if_pos h08]
          by_cases hp2 : m.setup_phase = 2
          · have hne : ¬ (msg.is_response = true ∧ msg.subheader = Subheaders.SETUP_08 ∧
                m.setup_phase = 3) := fun hc => by rw [hp2] at hc; exact absurd hc.2.2 (by decide)
            obtain ⟨e1, e2, e3, e4, e5⟩ :=
              send_setup_phase_effects ({ m with setup_phase := 3 } : VCMStateMachine) 3
            rw [if_pos hp2]
            exact ⟨by simpa using e1, by simpa using e2,
              by rw [setupPhaseStep, if_pos hresp, if_neg h11, if_neg h10, if_pos h08,
                if_pos hp2]; simpa using e5,
              by rw [if_neg hne]; simpa using e4,
              by rw [if_neg hne]; simpa using e3⟩
          · rw [if_neg hp2]
            by_cases hp3 : m.setup_phase = 3
            · have hyes : msg.is_response = true ∧ msg.subheader = Subheaders.SETUP_08 ∧
                  m.setup_phase = 3 := ⟨hresp, h08, hp3⟩
              rw [if_pos hp3]
              exact ⟨by simp [VCMStateMachine.complete_setup],
                by simp [VCMStateMachine.complete_setup],
                by rw [setupPhaseStep, if_pos hresp, if_neg h11, if_neg h10, if_pos h08,
                  if_neg hp2, if_pos hp3]; simp [VCMStateMachine.complete_setup],
                by rw [if_pos hyes]; simp [VCMStateMachine.complete_setup],
                by rw [if_pos hyes]; simp [VCMStateMachine.complete_setup]⟩
            · have hne : ¬ (msg.is_response = true ∧ msg.subheader = Subheaders.SETUP_08 ∧
                  m.setup_phase = 3) := fun hc => hp3 hc.2.2
              rw [if_neg hp3]
              exact ⟨rfl, rfl,
                by rw [setupPhaseStep, if_pos hresp, if_neg h11, if_neg h10, if_pos h08,
                  if_neg hp2, if_neg hp3],
                by rw [if_neg hne],
                by rw [if_neg hne]⟩
        · have hne : ¬ (msg.is_response = true ∧ msg.subheader = Subheaders.SETUP_08 ∧
              m.setup_phase = 3) := fun hc => h08 hc.2.1
          rw [if_neg h08]
          exact ⟨rfl, rfl,
            by rw [setupPhaseStep, if_pos hresp, if_neg h11, if_neg h10, if_neg h08],
            by rw [if_neg hne],
            by rw [if_neg hne]⟩
  · have hne : ¬ (msg.is_response = true ∧ msg.subheader = Subheaders.SETUP_08 ∧
        m.setup_phase = 3) := fun hc => hresp hc.1
    rw [if_neg hresp]
    exact ⟨rfl, rfl, by rw [setupPhaseStep, if_neg hresp], by rw [if_neg hne],
      by rw [if_neg hne]⟩

/-- `_handle_wifi_scanning` can only move the state to `WIFI_CONNECTING`;
the remembered IHU sequence, the connected flag and the broadcast timer
are untouched. -/
theorem handle_wifi_scanning_effects (m : VCMStateMachine) (msg : VCMMessage) :
    (m.handle_wifi_scanning msg).2.ctx.last_ihu_sequence = m.ctx.last_ihu_sequence ∧
    (m.handle_wifi_scanning msg).2.ctx.wifi_connected = m.ctx.wifi_connected ∧
    (m.handle_wifi_scanning msg).2.ctx.last_broadcast_time = m.ctx.last_broadcast_time ∧
    ((m.handle_wifi_scanning msg).2.ctx.state = m.ctx.state ∨
      (m.handle_wifi_scanning msg).2.ctx.state = VCMState.WIFI_CONNECTING) := by
  unfold VCMStateMachine.handle_wifi_scanning VCMStateMachine.start_wifi_connection
    VCMContext.get_next_sequence
  split
  · simp
  · split
    · refine ⟨?_, ?_, ?_, Or.inr (by simp)⟩ <;>
        cases hpw : (decode_wifi_password_message msg).1 <;> simp [hpw] <;> split <;> simp
    · simp

/-- `_handle_wifi_connecting` either leaves the machine untouched or moves
it to `WIFI_CONNECTED` with the connected flag set and the broadcast
timer armed; the remembered IHU sequence is never touched. -/
theorem handle_wifi_connecting_effects (m : VCMStateMachine) (now : ℚ) (msg : VCMMessage) :
    (m.handle_wifi_connecting now msg).2.ctx.last_ihu_sequence = m.ctx.last_ihu_sequence ∧
    ((m.handle_wifi_connecting now msg).2 = m ∨
      ((m.handle_wifi_connecting now msg).2.ctx.state = VCMState.WIFI_CONNECTED ∧
        (m.handle_wifi_connecting now msg).2.ctx.wifi_connected = true ∧
        (m.handle_wifi_connecting now msg).2.ctx.last_broadcast_time = now)) := by
  unfold VCMStateMachine.handle_wifi_connecting
  split
  · exact ⟨by simp, Or.inr (by simp)⟩
  · exact ⟨rfl, Or.inl rfl⟩

/-- `_handle_wifi_connected` never changes the machine. -/
theorem handle_wifi_connected_effects (m : VCMStateMachine) (msg : VCMMessage) :
    (m.handle_wifi_connected msg).2 = m := by
  unfold VCMStateMachine.handle_wifi_connected
  split
  · rfl
  · rfl

/-!
Claim C3.  In `process_message` the ACK early return sits before the
sequence-tracking assignment, so an acknowledgment never updates the
remembered IHU sequence even when its sequence byte is nonzero: the
claim's "including acknowledgments" fails on the code.
-/

/-- Counterexample to C3 as stated: an acknowledgment with sequence byte
`07` parses, has a nonzero sequence field, yet processing it leaves the
remembered peer sequence at its initial value 0 instead of setting it
to 7, in the initial state. -/
theorem C3_counterexample :
    (parse_message ("00a4040d00000008a40d000702700000".toList)).map VCMMessage.sequence =
        some 7 ∧
    (parse_message ("00a4040d00000008a40d000702700000".toList)).map VCMMessage.is_ack =
        some true ∧
    (initMachine.process_message 0 ("00a4040d00000008a40d000702700000".toList)).2.ctx.last_ihu_sequence = 0 := by
  exact ⟨by decide, by decide, by decide⟩

/-- C3 amended: every parseable **non-acknowledgment** inbound message with
a nonzero sequence field sets the remembered peer sequence to that
value, in every state and whatever the message's role; acknowledgments
are discarded before sequence tracking and never update it. -/
theorem C3_sequence_tracked (m : VCMStateMachine) (now : ℚ) (p : List Char)
    (msg : VCMMessage) (hp : parse_message p = some msg) (hna : msg.is_ack = false)
    (hnz : msg.sequence ≠ 0) :
    (m.process_message now p).2.ctx.last_ihu_sequence = msg.sequence := by
  rw [process_message_some m now p msg hp hna]
  have htrack : (track_sequence m msg).ctx.last_ihu_sequence = msg.sequence := by
    unfold track_sequence
    rw [if_pos hnz]
  cases hst : (track_sequence m msg).ctx.state
  · rw [(handle_idle_effects _ msg).1, htrack]
  · rw [(handle_handshake_effects _ msg).1, htrack]
  · rw [(handle_setup_spec _ now msg).1, htrack]
  · rw [(handle_wifi_scanning_effects _ msg).1, htrack]
  · rw [(handle_wifi_connecting_effects _ now msg).1, htrack]
  · rw [congrArg (fun x => x.ctx.last_ihu_sequence) (handle_wifi_connected_effects _ msg),
      htrack]

/-- Witness for C3 amended: a captured ping with sequence byte `28`
processed in the initial state leaves the remembered peer sequence
equal to `0x28`. -/
theorem C3_sequence_tracked_witness :
    (initMachine.process_message 0 ("00a4040d00000008a40d002802000000".toList)).2.ctx.last_ihu_sequence = 0x28 := by
  exact C3_sequence_tracked initMachine 0 _
    { header := "00a4040d000000".toList
      length := 8
      subheader := "a40d00".toList
      sequence := 0x28
      data := "02000000".toList }
    (by rfl) (by rfl) (by decide)

/-- A response (data prefixed `0204`) is never the ACK sentinel. -/
theorem response_not_ack (msg : VCMMessage) (h : msg.is_response = true) :
    msg.is_ack = false := by
  cases hd : msg.is_ack
  · rfl
  · have hdata : msg.data = ACK_DATA := by
      simpa [VCMMessage.is_ack] using hd
    unfold VCMMessage.is_response at h
    rw [hdata] at h
    exact absurd h (by decide)

/-- One `process_message` step taken in the `SETUP` state, for any
parseable message (acknowledgments included): the sub-phase follows
`setupPhaseStep`, the state moves to `WIFI_SCANNING` exactly on an
`a30802` response at sub-phase 3 (arming the broadcast timer with the
current time) and otherwise stays `SETUP`. -/
theorem process_setup_step (m : VCMStateMachine) (now : ℚ) (p : List Char)
    (msg : VCMMessage) (hp : parse_message p = some msg)
    (hst : m.ctx.state = VCMState.SETUP) :
    (m.process_message now p).2.setup_phase = setupPhaseStep msg m.setup_phase ∧
    ((m.process_message now p).2.ctx.state =
      if msg.is_response = true ∧ msg.subheader = Subheaders.SETUP_08 ∧ m.setup_phase = 3
      then VCMState.WIFI_SCANNING else VCMState.SETUP) ∧
    ((m.process_message now p).2.ctx.last_broadcast_time =
      if msg.is_response = true ∧ msg.subheader = Subheaders.SETUP_08 ∧ m.setup_phase = 3
      then now else m.ctx.last_broadcast_time) := by
  by_cases hack : msg.is_ack = true
  · have hdata : msg.data = ACK_DATA := by
      simpa [VCMMessage.is_ack] using hack
    have hnr : msg.is_response = false := by
      unfold VCMMessage.is_response
      rw [hdata]
      decide
    have hne : ¬ (msg.is_response = true ∧ msg.subheader = Subheaders.SETUP_08 ∧
        m.setup_phase = 3) := fun hc => by rw [hnr] at hc; exact absurd hc.1 (by decide)
    unfold VCMStateMachine.process_message
    rw [hp]
    simp only [hack, if_true]
    exact ⟨by rw [setupPhaseStep, hnr]; rfl, by rw [if_neg hne]; exact hst,
      by rw [if_neg hne]⟩
  · have hna : msg.is_ack = false := by simpa using hack
    rw [process_message_some m now p msg hp hna]
    have hst1 : (track_sequence m msg).ctx.state = VCMState.SETUP := by
      rw [(track_sequence_fields m msg).1, hst]
    rw [hst1]
    obtain ⟨_, _, e3, e4, e5⟩ := handle_setup_spec (track_sequence m msg) now msg
    have hph1 : (track_sequence m msg).setup_phase = m.setup_phase :=
      (track_sequence_fields m msg).2.2.2.1
    have htm1 : (track_sequence m msg).ctx.last_broadcast_time =
        m.ctx.last_broadcast_time := (track_sequence_fields m msg).2.2.1
    refine ⟨?_, ?_, ?_⟩
    · rw [e3, hph1]
    · rw [e4, hph1, hst1]
    · rw [e5, hph1, htm1]

/-!
Claim C5.  `_handle_setup` keys on the response's topic, and it is true
that duplicate responses never advance the sub-phase; but the `a31002`
branch sets the sub-phase to 2 unconditionally, so an out-of-order
`a31002` response (arriving at sub-phase 0, before its request was
issued) advances the sub-phase.
-/

/-- Counterexample to C5 as stated: drive the machine through the real
captured prefix (two pings and the setup trigger), reaching `SETUP` at
sub-phase 0, where only the `a31102` request has been issued; an
`a31002` response — a response to a topic whose request has not yet been
issued — then advances the setup sub-phase from 0 to 2. -/
theorem C5_counterexample :
    (run_messages initMachine 0
        [ "00a4040d00000008a40d002802000000".toList,
          "00a3030f00000008a30f002902000000".toList,
          "00a4040000000009a40002320202000020".toList ]).ctx.state = VCMState.SETUP ∧
    (run_messages initMachine 0
        [ "00a4040d00000008a40d002802000000".toList,
          "00a3030f00000008a30f002902000000".toList,
          "00a4040000000009a40002320202000020".toList ]).setup_phase = 0 ∧
    ((run_messages initMachine 0
        [ "00a4040d00000008a40d002802000000".toList,
          "00a3030f00000008a30f002902000000".toList,
          "00a4040000000009a40002320202000020".toList ]).process_message 0
        ("00a3031000000009a31002510204000000".toList)).2.setup_phase = 2 := by
  exact ⟨rfl, rfl, rfl⟩

/-- C5 amended: in the `SETUP` state sub-phase transitions are driven
purely by which setup topic the peer's response addresses; duplicate
responses (to an already-processed topic) never advance the sub-phase,
and neither does an out-of-order response to the first (`a31102`) or
third (`a30802`) topic — but an out-of-order response to the second
topic (`a31002`) sets the sub-phase to its fixed value 2 even when its
request has not yet been issued.  `setupPhaseStep` is exactly this
update: responses to the first and second topics set the phase to 1
resp. 2 unconditionally, a response to the third advances only from
phase 2 or 3, and no other message changes it. -/
theorem C5_setup_phase_by_topic (m : VCMStateMachine) (now : ℚ) (p : List Char)
    (msg : VCMMessage) (hp : parse_message p = some msg)
    (hst : m.ctx.state = VCMState.SETUP) :
    (m.process_message now p).2.setup_phase = setupPhaseStep msg m.setup_phase := by
  exact (process_setup_step m now p msg hp hst).1

/-- Witness for C5 amended: a duplicate second `a30802` response at
sub-phase 4 (setup already completed in the sub-phase counter's terms)
does not advance the sub-phase. -/
theorem C5_setup_phase_by_topic_witness :
    ({ initMachine with
        ctx := { initMachine.ctx with state := VCMState.SETUP },
        setup_phase := 4 } : VCMStateMachine).ctx.state = VCMState.SETUP ∧
    (({ initMachine with
        ctx := { initMachine.ctx with state := VCMState.SETUP },
        setup_phase := 4 } : VCMStateMachine).process_message 0
        ("00a3030800000009a30802540204000080".toList)).2.setup_phase = 4 := by
  refine ⟨rfl, ?_⟩
  rw [C5_setup_phase_by_topic _ 0 _
    { header := "00a30308000000".toList
      length := 9
      subheader := "a30802".toList
      sequence := 0x54
      data := "0204000080".toList }
    (by rfl) rfl]
  decide

/-!
Claim C6.  In the naming used by the specification's transition table the
"phase-1 topic" is `a31002` (the request emitted by `_send_setup_phase(1)`)
and the "phase-2 topic" is `a30802` (emitted by `_send_setup_phase(2)` and
repeated with a flag by `_send_setup_phase(3)`); the second `a30802`
response completes setup.  Starting just after the setup trigger
(sub-phase 0), the three-response chain a31002, a30802, a30802 does end
in `WIFI_SCANNING` with the timer armed — the unconditional jump of the
`a31002` branch recorded under C5 is exactly what makes the chain work
without an `a31102` response.
-/

/-- C6: from the `SETUP` state just after the setup trigger (sub-phase 0),
feeding the full setup response chain of three peer responses — a
response to the phase-1 topic `a31002`, then a response to the phase-2
topic `a30802`, then another `a30802` response — ends with the state
equal to `WIFI_SCANNING` and the last-broadcast timestamp freshly set to
the current time of the final step (broadcast timer armed). -/
theorem C6_setup_chain (m : VCMStateMachine) (t1 t2 t3 : ℚ) (p1 p2 p3 : List Char)
    (g1 g2 g3 : VCMMessage)
    (hst : m.ctx.state = VCMState.SETUP) (hph : m.setup_phase = 0)
    (h1 : parse_message p1 = some g1) (h1r : g1.is_response = true)
    (h1s : g1.subheader = Subheaders.SETUP_10)
    (h2 : parse_message p2 = some g2) (h2r : g2.is_response = true)
    (h2s : g2.subheader = Subheaders.SETUP_08)
    (h3 : parse_message p3 = some g3) (h3r : g3.is_response = true)
    (h3s : g3.subheader = Subheaders.SETUP_08) :
    (((m.process_message t1 p1).2.process_message t2 p2).2.process_message t3 p3).2.ctx.state =
        VCMState.WIFI_SCANNING ∧
    (((m.process_message t1 p1).2.process_message t2 p2).2.process_message t3 p3).2.ctx.last_broadcast_time =
        t3 := by
  have h10ne11 : Subheaders.SETUP_10 ≠ Subheaders.SETUP_11 := by decide
  have h10ne08 : Subheaders.SETUP_10 ≠ Subheaders.SETUP_08 := by decide
  have h08ne11 : Subheaders.SETUP_08 ≠ Subheaders.SETUP_11 := by decide
  have h08ne10 : Subheaders.SETUP_08 ≠ Subheaders.SETUP_10 := by decide
  obtain ⟨a1, a2, _⟩ := process_setup_step m t1 p1 g1 h1 hst
  have hstA : (m.process_message t1 p1).2.ctx.state = VCMState.SETUP := by
    rw [a2, if_neg (fun hc => h10ne08 (h1s ▸ hc.2.1))]
  have hphA : (m.process_message t1 p1).2.setup_phase = 2 := by
    rw [a1, hph, setupPhaseStep, if_pos h1r, if_neg (fun hc => h10ne11 (h1s ▸ hc)),
      if_pos h1s]
  obtain ⟨b1, b2, _⟩ := process_setup_step _ t2 p2 g2 h2 hstA
  have hstB : ((m.process_message t1 p1).2.process_message t2 p2).2.ctx.state =
      VCMState.SETUP := by
    rw [b2, if_neg (fun hc => by rw [hphA] at hc; exact absurd hc.2.2 (by decide))]
  have hphB : ((m.process_message t1 p1).2.process_message t2 p2).2.setup_phase = 3 := by
    rw [b1, hphA, setupPhaseStep, if_pos h2r, if_neg (fun hc => h08ne11 (h2s ▸ hc)),
      if_neg (fun hc => h08ne10 (h2s ▸ hc)), if_pos h2s]
    rfl
  obtain ⟨_, c2, c3⟩ := process_setup_step _ t3 p3 g3 h3 hstB
  have hcond : g3.is_response = true ∧ g3.subheader = Subheaders.SETUP_08 ∧
      ((m.process_message t1 p1).2.process_message t2 p2).2.setup_phase = 3 :=
    ⟨h3r, h3s, hphB⟩
  exact ⟨by rw [c2, if_pos hcond], by rw [c3, if_pos hcond]⟩

/-- Witness for C6 on the captured traffic: two pings and the setup
trigger put the machine in `SETUP` at sub-phase 0; the three captured
responses (to `a31002`, then twice to `a30802`) processed at time 9 end
in `WIFI_SCANNING` with the broadcast timer set to 9. -/
theorem C6_setup_chain_witness :
    ((((run_messages initMachine 0
        [ "00a4040d00000008a40d002802000000".toList,
          "00a3030f00000008a30f002902000000".toList,
          "00a4040000000009a40002320202000020".toList ]).process_message 9
        ("00a3031000000009a31002510204000000".toList)).2.process_message 9
        ("00a3030800000009a30802520204000000".toList)).2.process_message 9
        ("00a3030800000009a30802540204000080".toList)).2.ctx.state =
        VCMState.WIFI_SCANNING ∧
    ((((run_messages initMachine 0
        [ "00a4040d00000008a40d002802000000".toList,
          "00a3030f00000008a30f002902000000".toList,
          "00a4040000000009a40002320202000020".toList ]).process_message 9
        ("00a3031000000009a31002510204000000".toList)).2.process_message 9
        ("00a3030800000009a30802520204000000".toList)).2.process_message 9
        ("00a3030800000009a30802540204000080".toList)).2.ctx.last_broadcast_time = 9 := by
  exact C6_setup_chain _ 9 9 9 _ _ _
    { header := "00a30310000000".toList
      length := 9
      subheader := "a31002".toList
      sequence := 0x51
      data := "0204000000".toList }
    { header := "00a30308000000".toList
      length := 9
      subheader := "a30802".toList
      sequence := 0x52
      data := "0204000000".toList }
    { header := "00a30308000000".toList
      length := 9
      subheader := "a30802".toList
      sequence := 0x54
      data := "0204000080".toList }
    rfl rfl (by rfl) (by rfl) (by rfl) (by rfl) (by rfl) (by rfl) (by rfl) (by rfl) (by rfl)

/-!
Claim C8: the periodic tick.
-/

/-- C8: `tick` emits messages only in the `WIFI_SCANNING` and
`WIFI_CONNECTED` states.  When the time elapsed since the last broadcast
reaches the broadcast interval it emits exactly one broadcast — the
scan-result broadcast, whose status byte (the fifth data byte) is `00`
("not connected"), in `WIFI_SCANNING`; the connected-status broadcast,
whose status byte is `40` ("connected"), in `WIFI_CONNECTED` — and
resets the timer to the current time; if the interval has not elapsed,
or in any other state, it returns no messages and leaves the machine
unchanged. -/
theorem C8_tick_broadcasts (m : VCMStateMachine) (now : ℚ) :
    (m.ctx.state = VCMState.WIFI_SCANNING →
      m.ctx.broadcast_interval ≤ now - m.ctx.last_broadcast_time →
      m.tick now =
        ([create_message Headers.A4_04_0D Subheaders.WIFI_SCAN 0
            StandardMessages.SSID_SCANNING],
         { m with ctx := { m.ctx with last_broadcast_time := now } }) ∧
      (StandardMessages.SSID_SCANNING.drop 8).take 2 = "00".toList) ∧
    (m.ctx.state = VCMState.WIFI_CONNECTED →
      m.ctx.broadcast_interval ≤ now - m.ctx.last_broadcast_time →
      m.tick now =
        ([create_message Headers.A4_04_0D Subheaders.WIFI_SCAN 0
            StandardMessages.SSID_CONNECTED],
         { m with ctx := { m.ctx with last_broadcast_time := now } }) ∧
      (StandardMessages.SSID_CONNECTED.drop 8).take 2 = "40".toList) ∧
    (now - m.ctx.last_broadcast_time < m.ctx.broadcast_interval →
      m.tick now = ([], m)) ∧
    (¬ (m.ctx.state = VCMState.WIFI_SCANNING ∨ m.ctx.state = VCMState.WIFI_CONNECTED) →
      m.tick now = ([], m)) := by
  refine ⟨?_, ?_, ?_, ?_⟩
  · intro hst helapsed
    refine ⟨?_, by decide⟩
    unfold VCMStateMachine.tick
    rw [if_pos (Or.inl hst), if_pos helapsed, hst]
    rfl
  · intro hst helapsed
    refine ⟨?_, by decide⟩
    unfold VCMStateMachine.tick
    rw [if_pos (Or.inr hst), if_pos helapsed, hst]
    rfl
  · intro hlt
    unfold VCMStateMachine.tick
    split
    · rw [if_neg (not_le.mpr hlt)]
    · rfl
  · intro hst
    unfold VCMStateMachine.tick
    rw [if_neg hst]

/-- Witness for C8: in a `WIFI_SCANNING` machine (timer at 0, interval 5)
a tick at time 5 emits exactly the scan-result broadcast and resets the
timer, a tick at time 3 emits nothing, and the initial (`IDLE`) machine
ticks to nothing at any time. -/
theorem C8_tick_broadcasts_witness :
    ({ initMachine with
        ctx := { initMachine.ctx with state := VCMState.WIFI_SCANNING } } :
        VCMStateMachine).tick 5 =
      ([create_message Headers.A4_04_0D Subheaders.WIFI_SCAN 0
          StandardMessages.SSID_SCANNING],
       { ({ initMachine with
            ctx := { initMachine.ctx with state := VCMState.WIFI_SCANNING } } :
            VCMStateMachine) with
          ctx := { ({ initMachine with
            ctx := { initMachine.ctx with state := VCMState.WIFI_SCANNING } } :
            VCMStateMachine).ctx with last_broadcast_time := 5 } }) ∧
    ({ initMachine with
        ctx := { initMachine.ctx with state := VCMState.WIFI_SCANNING } } :
        VCMStateMachine).tick 3 =
      ([], { initMachine with
        ctx := { initMachine.ctx with state := VCMState.WIFI_SCANNING } }) ∧
    initMachine.tick 9 = ([], initMachine) := by
  refine ⟨?_, ?_, ?_⟩
  · exact ((C8_tick_broadcasts _ 5).1 rfl
      (by norm_num [initMachine])).1
  · exact (C8_tick_broadcasts _ 3).2.2.1 (by norm_num [initMachine])
  · exact (C8_tick_broadcasts initMachine 9).2.2.2 (by decide)

/-!
Claim C2: the encode/decode round trip.  "Valid constructed message"
means the structural well-formedness the data model prescribes: a
7-byte (14 hex character) header, a 3-byte (6 character) subheader, and
one-byte length and sequence values.  In the other direction, an inbound
byte sequence reaches `process_message` as `bytes.hex()`, i.e. a string
of lower-case hex digits.
-/

set_option maxRecDepth 4096 in
/-- Formatting a byte value with `f"{n:02x}"` yields two characters that
`int(s, 16)` parses back to the same value. -/
theorem pyFormat02x_parse : ∀ k : Nat, k < 256 →
    pyIntHex2 (pyFormat02x (k : Int)) = some (k : Int) ∧
    (pyFormat02x (k : Int)).length = 2 := by
  decide

set_option maxRecDepth 4096 in
/-- Parsing two lower-case hex digits with `int(s, 16)` succeeds, and
formatting the value back with `f"{n:02x}"` restores the two digits. -/
theorem parse_format_pair : ∀ c ∈ lowerHexDigits, ∀ d ∈ lowerHexDigits,
    (pyIntHex2 [c, d]).isSome = true ∧
    pyFormat02x ((pyIntHex2 [c, d]).getD 0) = [c, d] := by
  decide

/-- `pyFormat02x_parse` transported to integer byte values. -/
theorem pyFormat02x_parse_int (n : Int) (h0 : 0 ≤ n) (h256 : n < 256) :
    pyIntHex2 (pyFormat02x n) = some n ∧ (pyFormat02x n).length = 2 := by
  obtain ⟨k, rfl⟩ := Int.eq_ofNat_of_zero_le h0
  exact pyFormat02x_parse k (by exact_mod_cast h256)

/-- Reformatting the value parsed from two lower-case hex digits restores
the digits. -/
theorem pyFormat02x_of_parse {c d : Char} {v : Int} (hc : c ∈ lowerHexDigits)
    (hd : d ∈ lowerHexDigits) (h : pyIntHex2 [c, d] = some v) :
    pyFormat02x v = [c, d] := by
  have hpair := (parse_format_pair c hc d hd).2
  rw [h, Option.getD_some] at hpair
  exact hpair

/-- C2: encoding then decoding is the identity on valid constructed
messages, and decoding an inbound lower-case-hex byte sequence and
re-encoding the resulting message reproduces the original byte sequence
exactly. -/
theorem C2_roundtrip :
    (∀ m : VCMMessage, m.header.length = 14 → m.subheader.length = 6 →
      0 ≤ m.length → m.length < 256 → 0 ≤ m.sequence → m.sequence < 256 →
      parse_message m.raw = some m) ∧
    (∀ p : List Char, (∀ c ∈ p, c ∈ lowerHexDigits) →
      ∀ m : VCMMessage, parse_message p = some m → m.raw = p) := by
  constructor
  · intro m hh hs hl0 hl hq0 hq
    obtain ⟨hfl, hfl2⟩ := pyFormat02x_parse_int m.length hl0 hl
    obtain ⟨hfq, hfq2⟩ := pyFormat02x_parse_int m.sequence hq0 hq
    have hraw : m.raw = m.header ++ (pyFormat02x m.length ++ (m.subheader ++
        (pyFormat02x m.sequence ++ m.data))) := by
      unfold VCMMessage.raw
      simp [List.append_assoc]
    have e_take14 : m.raw.take 14 = m.header := by
      rw [hraw]
      exact List.take_left' hh
    have e_drop14 : m.raw.drop 14 = pyFormat02x m.length ++ (m.subheader ++
        (pyFormat02x m.sequence ++ m.data)) := by
      rw [hraw]
      exact List.drop_left' hh
    have eslice1 : (m.raw.drop 14).take 2 = pyFormat02x m.length := by
      rw [e_drop14]
      exact List.take_left' hfl2
    have e_drop16 : m.raw.drop 16 = m.subheader ++ (pyFormat02x m.sequence ++ m.data) := by
      have h1 : (m.raw.drop 14).drop 2 = m.raw.drop 16 := by
        rw [List.drop_drop]
      rw [← h1, e_drop14]
      exact List.drop_left' hfl2
    have esub : (m.raw.drop 16).take 6 = m.subheader := by
      rw [e_drop16]
      exact List.take_left' hs
    have e_drop22 : m.raw.drop 22 = pyFormat02x m.sequence ++ m.data := by
      have h1 : (m.raw.drop 16).drop 6 = m.raw.drop 22 := by
        rw [List.drop_drop]
      rw [← h1, e_drop16]
      exact List.drop_left' hs
    have eslice2 : (m.raw.drop 22).take 2 = pyFormat02x m.sequence := by
      rw [e_drop22]
      exact List.take_left' hfq2
    have e_drop24 : m.raw.drop 24 = m.data := by
      have h1 : (m.raw.drop 22).drop 2 = m.raw.drop 24 := by
        rw [List.drop_drop]
      rw [← h1, e_drop22]
      exact List.drop_left' hfq2
    have hlen24 : ¬ m.raw.length < 24 := by
      rw [hraw]
      simp only [List.length_append, hh, hs, hfl2, hfq2]
      omega
    unfold parse_message
    rw [if_neg hlen24, eslice1, hfl, eslice2, hfq]
    simp only [e_take14, esub, e_drop24]
  · intro p hhex m hp
    unfold parse_message at hp
    by_cases hlen : p.length < 24
    · rw [if_pos hlen] at hp
      exact absurd hp (by simp)
    · rw [if_neg hlen] at hp
      cases hA : pyIntHex2 ((p.drop 14).take 2) with
      | none =>
        rw [hA] at hp
        cases hB : pyIntHex2 ((p.drop 22).take 2) <;> rw [hB] at hp <;> simp at hp
      | some v1 =>
        cases hB : pyIntHex2 ((p.drop 22).take 2) with
        | none =>
          rw [hA, hB] at hp
          simp at hp
        | some v2 =>
          rw [hA, hB] at hp
          simp only [Option.some.injEq] at hp
          have hlen1 : ((p.drop 14).take 2).length = 2 := by
            rw [List.length_take, List.length_drop]
            omega
          have hlen2 : ((p.drop 22).take 2).length = 2 := by
            rw [List.length_take, List.length_drop]
            omega
          obtain ⟨c1, c2, hc⟩ := List.length_eq_two.mp hlen1
          obtain ⟨d1, d2, hd⟩ := List.length_eq_two.mp hlen2
          have hf1 : pyFormat02x v1 = (p.drop 14).take 2 := by
            rw [hc]
            refine pyFormat02x_of_parse
              (hhex c1 (List.mem_of_mem_drop (List.mem_of_mem_take (by rw [hc]; simp))))
              (hhex c2 (List.mem_of_mem_drop (List.mem_of_mem_take (by rw [hc]; simp))))
              ?_
            rw [← hc]
            exact hA
          have hf2 : pyFormat02x v2 = (p.drop 22).take 2 := by
            rw [hd]
            refine pyFormat02x_of_parse
              (hhex d1 (List.mem_of_mem_drop (List.mem_of_mem_take (by rw [hd]; simp))))
              (hhex d2 (List.mem_of_mem_drop (List.mem_of_mem_take (by rw [hd]; simp))))
              ?_
            rw [← hd]
            exact hB
          have e3 : p.drop 14 = (p.drop 14).take 2 ++ p.drop 16 := by
            have h1 : (p.drop 14).drop 2 = p.drop 16 := by
              rw [List.drop_drop]
            rw [← h1]
            exact (List.take_append_drop 2 (p.drop 14)).symm
          have e2 : p.drop 16 = (p.drop 16).take 6 ++ p.drop 22 := by
            have h1 : (p.drop 16).drop 6 = p.drop 22 := by
              rw [List.drop_drop]
            rw [← h1]
            exact (List.take_append_drop 6 (p.drop 16)).symm
          have e1 : p.drop 22 = (p.drop 22).take 2 ++ p.drop 24 := by
            have h1 : (p.drop 22).drop 2 = p.drop 24 := by
              rw [List.drop_drop]
            rw [← h1]
            exact (List.take_append_drop 2 (p.drop 22)).symm
          rw [← hp]
          unfold VCMMessage.raw
          simp only
          rw [hf1, hf2]
          conv_rhs => rw [← List.take_append_drop 14 p, e3, e2, e1]
          simp [List.append_assoc]

/-- Witness for C2: the captured ping payload round-trips in both
directions — the message it parses to re-encodes to the original
payload, and re-parsing that encoding yields the same message. -/
theorem C2_roundtrip_witness :
    VCMMessage.raw ⟨"00a4040d000000".toList, 8, "a40d00".toList, 0x28,
        "02000000".toList⟩ = "00a4040d00000008a40d002802000000".toList ∧
    parse_message (VCMMessage.raw ⟨"00a4040d000000".toList, 8, "a40d00".toList, 0x28,
        "02000000".toList⟩) =
      some ⟨"00a4040d000000".toList, 8, "a40d00".toList, 0x28, "02000000".toList⟩ := by
  constructor
  · exact C2_roundtrip.2 ("00a4040d00000008a40d002802000000".toList) (by decide)
      ⟨"00a4040d000000".toList, 8, "a40d00".toList, 0x28, "02000000".toList⟩ (by rfl)
  · exact C2_roundtrip.1 ⟨"00a4040d000000".toList, 8, "a40d00".toList, 0x28,
      "02000000".toList⟩ (by rfl) (by rfl) (by decide) (by decide) (by decide) (by decide)

/-!
Claim C7: leaving `IDLE` requires both ping topics.
-/

/-- A list containing two distinct elements has length at least two. -/
theorem two_le_length_of_two_mem {α : Type} {a b : α} {l : List α} (hab : a ≠ b)
    (ha : a ∈ l) (hb : b ∈ l) : 2 ≤ l.length := by
  induction l with
  | nil => cases ha
  | cons c t ih =>
    rcases List.mem_cons.mp ha with rfl | ha2
    · rcases List.mem_cons.mp hb with rfl | hb2
      · exact absurd rfl hab
      · have := List.length_pos_of_mem hb2
        simp only [List.length_cons]
        omega
    · rcases List.mem_cons.mp hb with rfl | hb2
      · have := List.length_pos_of_mem ha2
        simp only [List.length_cons]
        omega
      · have := ih ha2 hb2
        simp only [List.length_cons]
        omega

/-- In `HANDSHAKE`, any parseable message that does not carry the setup
trigger topic leaves the state at `HANDSHAKE`. -/
theorem process_handshake_stays (m : VCMStateMachine) (now : ℚ) (p : List Char)
    (msg : VCMMessage) (hp : parse_message p = some msg)
    (hst : m.ctx.state = VCMState.HANDSHAKE)
    (hnt : msg.subheader ≠ Subheaders.SETUP_TRIGGER) :
    (m.process_message now p).2.ctx.state = VCMState.HANDSHAKE := by
  by_cases hack : msg.is_ack = true
  · rw [process_message_ack m now p msg hp hack]
    exact hst
  · have hna : msg.is_ack = false := by simpa using hack
    rw [process_message_some m now p msg hp hna]
    have hst1 : (track_sequence m msg).ctx.state = VCMState.HANDSHAKE := by
      rw [(track_sequence_fields m msg).1]
      exact hst
    rw [hst1]
    show ((track_sequence m msg).handle_handshake msg).2.ctx.state = VCMState.HANDSHAKE
    unfold VCMStateMachine.handle_handshake
    split
    · simpa using hst1
    · split
      · next hc => exact absurd hc.1 hnt
      · simpa using hst1

/-- In `IDLE`, a non-ACK ping updates the two handshake trackers and moves
to `HANDSHAKE` exactly when two distinct ping subheaders and two pings
have been counted. -/
theorem process_ping_idle (m : VCMStateMachine) (now : ℚ) (p : List Char)
    (msg : VCMMessage) (hp : parse_message p = some msg) (hna : msg.is_ack = false)
    (hping : msg.subheader = Subheaders.PING_0D ∨ msg.subheader = Subheaders.PING_0F)
    (hst : m.ctx.state = VCMState.IDLE) :
    (m.process_message now p).2.handshake_messages_seen =
      m.handshake_messages_seen.insert msg.subheader ∧
    (m.process_message now p).2.handshake_count = m.handshake_count + 1 ∧
    (m.process_message now p).2.ctx.state =
      (if 2 ≤ (m.handshake_messages_seen.insert msg.subheader).length ∧
          2 ≤ m.handshake_count + 1 then VCMState.HANDSHAKE else VCMState.IDLE) := by
  rw [process_message_some m now p msg hp hna]
  have hst1 : (track_sequence m msg).ctx.state = VCMState.IDLE := by
    rw [(track_sequence_fields m msg).1]
    exact hst
  rw [hst1]
  unfold VCMStateMachine.handle_idle
  rw [if_pos hping]
  obtain ⟨_, _, _, _, ecount, eseen⟩ := track_sequence_fields m msg
  refine ⟨by simpa using congrArg (List.insert msg.subheader) eseen,
    by simpa using ecount, ?_⟩
  have : ((if 2 ≤ ((track_sequence m msg).handshake_messages_seen.insert msg.subheader).length ∧
        2 ≤ (track_sequence m msg).handshake_count + 1 then VCMState.HANDSHAKE
      else (track_sequence m msg).ctx.state)) =
      (if 2 ≤ (m.handshake_messages_seen.insert msg.subheader).length ∧
        2 ≤ m.handshake_count + 1 then VCMState.HANDSHAKE else VCMState.IDLE) := by
    rw [eseen, ecount, hst1]
  simpa using this

/-- Unfolding `run_messages` one step. -/
theorem run_messages_cons (m : VCMStateMachine) (now : ℚ) (p : List Char)
    (ps : List (List Char)) :
    run_messages m now (p :: ps) = run_messages (m.process_message now p).2 now ps := by
  rfl

/-- Induction for C7 part one: while in `IDLE` with consistent handshake
trackers and both ping topics available (already seen or still to come),
feeding non-ACK pings ends in `HANDSHAKE`; `HANDSHAKE` absorbs pings. -/
theorem run_pings_reaches_handshake (now : ℚ) (ps : List (List Char)) :
    ∀ (m : VCMStateMachine),
      (∀ p ∈ ps, ∃ msg : VCMMessage, parse_message p = some msg ∧ msg.is_ack = false ∧
        (msg.subheader = Subheaders.PING_0D ∨ msg.subheader = Subheaders.PING_0F)) →
      (m.ctx.state = VCMState.HANDSHAKE ∨
        (m.ctx.state = VCMState.IDLE ∧
          m.handshake_messages_seen.length ≤ m.handshake_count ∧
          (Subheaders.PING_0D ∈ m.handshake_messages_seen ∨
            ∃ p ∈ ps, ∃ msg : VCMMessage, parse_message p = some msg ∧
              msg.subheader = Subheaders.PING_0D) ∧
          (Subheaders.PING_0F ∈ m.handshake_messages_seen ∨
            ∃ p ∈ ps, ∃ msg : VCMMessage, parse_message p = some msg ∧
              msg.subheader = Subheaders.PING_0F) ∧
          ¬ (Subheaders.PING_0D ∈ m.handshake_messages_seen ∧
             Subheaders.PING_0F ∈ m.handshake_messages_seen))) →
      (run_messages m now ps).ctx.state = VCMState.HANDSHAKE := by
  have hDF : Subheaders.PING_0D ≠ Subheaders.PING_0F := by decide
  induction ps with
  | nil =>
    intro m _ hinv
    rcases hinv with hH | ⟨_, _, hD, hF, hnb⟩
    · exact hH
    · rcases hD with hD | ⟨_, h, _⟩
      · rcases hF with hF | ⟨_, h, _⟩
        · exact absurd ⟨hD, hF⟩ hnb
        · exact absurd h (by simp)
      · exact absurd h (by simp)
  | cons p rest ih =>
    intro m hall hinv
    rw [run_messages_cons]
    obtain ⟨msg, hpm, hna, hping⟩ := hall p (List.mem_cons_self p rest)
    have hallrest : ∀ q ∈ rest, ∃ msg : VCMMessage, parse_message q = some msg ∧
        msg.is_ack = false ∧ (msg.subheader = Subheaders.PING_0D ∨
          msg.subheader = Subheaders.PING_0F) :=
      fun q hq => hall q (List.mem_cons_of_mem p hq)
    rcases hinv with hH | ⟨hst, hle, hD, hF, hnb⟩
    · have habs : (m.process_message now p).2.ctx.state = VCMState.HANDSHAKE := by
        refine process_handshake_stays m now p msg hpm hH ?_
        rcases hping with h | h <;> rw [h] <;> decide
      exact ih _ hallrest (Or.inl habs)
    · obtain ⟨eseen, ecount, estate⟩ := process_ping_idle m now p msg hpm hna hping hst
      by_cases hc : 2 ≤ (m.handshake_messages_seen.insert msg.subheader).length ∧
          2 ≤ m.handshake_count + 1
      · refine ih _ hallrest (Or.inl ?_)
        rw [estate, if_pos hc]
      · refine ih _ hallrest (Or.inr ⟨by rw [estate, if_neg hc], ?_, ?_, ?_, ?_⟩)
        · rw [eseen, ecount]
          by_cases hmem : msg.subheader ∈ m.handshake_messages_seen
          · rw [List.insert_of_mem hmem]
            omega
          · rw [List.length_insert_of_not_mem hmem]
            omega
        · rw [eseen]
          rcases hD with hD | ⟨q, hq, msgD, hqm, hsubD⟩
          · exact Or.inl (List.mem_insert_iff.mpr (Or.inr hD))
          · rcases List.mem_cons.mp hq with rfl | hq2
            · have : msgD = msg := by
                have := hqm.symm.trans hpm
                exact Option.some.inj this
              rw [this] at hsubD
              exact Or.inl (hsubD ▸ List.mem_insert_self _ _)
            · exact Or.inr ⟨q, hq2, msgD, hqm, hsubD⟩
        · rw [eseen]
          rcases hF with hF | ⟨q, hq, msgF, hqm, hsubF⟩
          · exact Or.inl (List.mem_insert_iff.mpr (Or.inr hF))
          · rcases List.mem_cons.mp hq with rfl | hq2
            · have : msgF = msg := by
                have := hqm.symm.trans hpm
                exact Option.some.inj this
              rw [this] at hsubF
              exact Or.inl (hsubF ▸ List.mem_insert_self _ _)
            · exact Or.inr ⟨q, hq2, msgF, hqm, hsubF⟩
        · rw [eseen]
          intro ⟨hDin, hFin⟩
          have h2 : 2 ≤ (m.handshake_messages_seen.insert msg.subheader).length :=
            two_le_length_of_two_mem hDF hDin hFin
          have h1 : 1 ≤ m.handshake_messages_seen.length := by
            rcases List.mem_insert_iff.mp hDin with hDeq | hDmem
            · rcases List.mem_insert_iff.mp hFin with hFeq | hFmem
              · exact absurd (hDeq.trans hFeq.symm) hDF
              · exact List.length_pos_of_mem hFmem
            · exact List.length_pos_of_mem hDmem
          exact hc ⟨h2, by omega⟩

/-- Induction for C7 part two: in `IDLE` with at most the single topic `s`
recorded, messages that all carry subheader `s` keep the machine in
`IDLE` forever. -/
theorem run_one_topic_stays_idle (now : ℚ) (s : List Char) (ps : List (List Char)) :
    ∀ (m : VCMStateMachine),
      (s = Subheaders.PING_0D ∨ s = Subheaders.PING_0F) →
      (∀ p ∈ ps, ∃ msg : VCMMessage, parse_message p = some msg ∧ msg.subheader = s) →
      m.ctx.state = VCMState.IDLE →
      (∀ x ∈ m.handshake_messages_seen, x = s) →
      m.handshake_messages_seen.length ≤ 1 →
      (run_messages m now ps).ctx.state = VCMState.IDLE := by
  induction ps with
  | nil =>
    intro m _ _ hst _ _
    exact hst
  | cons p rest ih =>
    intro m hs hall hst hxs hlen
    rw [run_messages_cons]
    obtain ⟨msg, hpm, hsub⟩ := hall p (List.mem_cons_self p rest)
    have hallrest : ∀ q ∈ rest, ∃ msg : VCMMessage, parse_message q = some msg ∧
        msg.subheader = s := fun q hq => hall q (List.mem_cons_of_mem p hq)
    by_cases hack : msg.is_ack = true
    · have hm : (m.process_message now p).2 = m := by
        rw [process_message_ack m now p msg hpm hack]
      exact ih _ hs hallrest (by rw [hm]; exact hst) (by rw [hm]; exact hxs)
        (by rw [hm]; exact hlen)
    · have hna : msg.is_ack = false := by simpa using hack
      have hping : msg.subheader = Subheaders.PING_0D ∨
          msg.subheader = Subheaders.PING_0F := by
        rw [hsub]
        exact hs
      obtain ⟨eseen, _, estate⟩ := process_ping_idle m now p msg hpm hna hping hst
      have hlen2 : (m.handshake_messages_seen.insert msg.subheader).length ≤ 1 := by
        by_cases hmem : msg.subheader ∈ m.handshake_messages_seen
        · rw [List.insert_of_mem hmem]
          exact hlen
        · have hnil : m.handshake_messages_seen = [] := by
            cases hseen : m.handshake_messages_seen with
            | nil => rfl
            | cons a t =>
              have ha : a = s := hxs a (by rw [hseen]; exact List.mem_cons_self a t)
              rw [hseen, ha, ← hsub] at hmem
              exact absurd (List.mem_cons_self _ _) hmem
          rw [hnil]
          simp [List.insert]
      refine ih _ hs hallrest ?_ ?_ ?_
      · rw [estate, if_neg (fun hcc => by omega)]
      · rw [eseen]
        intro x hx
        rcases List.mem_insert_iff.mp hx with h | h
        · rw [h, hsub]
        · exact hxs x h
      · rw [eseen]
        exact hlen2

/-- C7: from the initial `IDLE` state, feeding messages of the two
distinct known ping topics (each observed at least once, hence combined
count at least 2) transitions the machine to `HANDSHAKE`, and feeding
messages of only one ping topic, repeated any number of times, never
causes that transition (the machine stays in `IDLE`). -/
theorem C7_idle_to_handshake :
    (∀ (now : ℚ) (ps : List (List Char)),
      (∀ p ∈ ps, ∃ msg : VCMMessage, parse_message p = some msg ∧ msg.is_ack = false ∧
        (msg.subheader = Subheaders.PING_0D ∨ msg.subheader = Subheaders.PING_0F)) →
      (∃ p ∈ ps, ∃ msg : VCMMessage, parse_message p = some msg ∧
        msg.subheader = Subheaders.PING_0D) →
      (∃ p ∈ ps, ∃ msg : VCMMessage, parse_message p = some msg ∧
        msg.subheader = Subheaders.PING_0F) →
      (run_messages initMachine now ps).ctx.state = VCMState.HANDSHAKE) ∧
    (∀ (now : ℚ) (s : List Char) (ps : List (List Char)),
      (s = Subheaders.PING_0D ∨ s = Subheaders.PING_0F) →
      (∀ p ∈ ps, ∃ msg : VCMMessage, parse_message p = some msg ∧ msg.subheader = s) →
      (run_messages initMachine now ps).ctx.state = VCMState.IDLE) := by
  constructor
  · intro now ps hall hD hF
    refine run_pings_reaches_handshake now ps initMachine hall (Or.inr ?_)
    refine ⟨rfl, by decide, Or.inr hD, Or.inr hF, ?_⟩
    intro ⟨hDin, _⟩
    exact absurd hDin (by decide)
  · intro now s ps hs hall
    refine run_one_topic_stays_idle now s ps initMachine hs hall rfl ?_ (by decide)
    intro x hx
    exact absurd hx (List.not_mem_nil x)

/-- Witness for C7: the two captured pings (topics `a40d00` then `a30f00`)
drive the fresh machine to `HANDSHAKE`, while three pings of the single
topic `a40d00` leave it in `IDLE`. -/
theorem C7_idle_to_handshake_witness :
    (run_messages initMachine 0
      [ "00a4040d00000008a40d002802000000".toList,
        "00a3030f00000008a30f002902000000".toList ]).ctx.state = VCMState.HANDSHAKE ∧
    (run_messages initMachine 0
      [ "00a4040d00000008a40d002802000000".toList,
        "00a4040d00000008a40d003002000000".toList,
        "00a4040d00000008a40d003102000000".toList ]).ctx.state = VCMState.IDLE := by
  constructor
  · refine C7_idle_to_handshake.1 0 _ ?_ ?_ ?_
    · intro p hp
      rcases List.mem_cons.mp hp with rfl | hp2
      · exact ⟨⟨"00a4040d000000".toList, 8, "a40d00".toList, 0x28, "02000000".toList⟩,
          by rfl, by rfl, Or.inl rfl⟩
      rcases List.mem_cons.mp hp2 with rfl | hp3
      · exact ⟨⟨"00a3030f000000".toList, 8, "a30f00".toList, 0x29, "02000000".toList⟩,
          by rfl, by rfl, Or.inr rfl⟩
      · cases hp3
    · exact ⟨_, List.mem_cons_self _ _,
        ⟨"00a4040d000000".toList, 8, "a40d00".toList, 0x28, "02000000".toList⟩,
        by rfl, rfl⟩
    · exact ⟨_, List.mem_cons_of_mem _ (List.mem_cons_self _ _),
        ⟨"00a3030f000000".toList, 8, "a30f00".toList, 0x29, "02000000".toList⟩,
        by rfl, rfl⟩
  · refine C7_idle_to_handshake.2 0 Subheaders.PING_0D _ (Or.inl rfl) ?_
    intro p hp
    rcases List.mem_cons.mp hp with rfl | hp2
    · exact ⟨⟨"00a4040d000000".toList, 8, "a40d00".toList, 0x28, "02000000".toList⟩,
        by rfl, rfl⟩
    rcases List.mem_cons.mp hp2 with rfl | hp3
    · exact ⟨⟨"00a4040d000000".toList, 8, "a40d00".toList, 0x30, "02000000".toList⟩,
        by rfl, rfl⟩
    rcases List.mem_cons.mp hp3 with rfl | hp4
    · exact ⟨⟨"00a4040d000000".toList, 8, "a40d00".toList, 0x31, "02000000".toList⟩,
        by rfl, rfl⟩
    · cases hp4

/-!
Claim C9: soft-failing WiFi credential decoding.  The embedded
`decode_wifi_password_message` is a total function — the bare `except`
of the source is modelled by the explicit `(none, none)` branches and
the text decoding is the total lossy `utf8DecodeReplace` — so no input
can raise to the caller.
-/

/-- Reduction of `decode_wifi_password_message` once the prefix check has
passed and the hex decoding has succeeded. -/
theorem decode_wifi_password_message_some (msg : VCMMessage) (bs : List Nat)
    (hpre : ("02020000".toList).isPrefixOf msg.data = true)
    (hb : bytesFromHex? (msg.data.drop 8) = some bs) :
    decode_wifi_password_message msg =
      (if bs.length < 1 then (none, none)
       else if bs.length < 1 + bs.headD 0 then (none, none)
       else (some (utf8DecodeReplace ((bs.drop 1).take (bs.headD 0))),
             if 1 + bs.headD 0 < bs.length then some (bs.drop (1 + bs.headD 0))
             else none)) := by
  unfold decode_wifi_password_message
  rw [if_pos hpre, hb]

/-- C9: `decode_wifi_password_message` returns (absent, absent) unless the
message's data begins with `02020000` and the remainder hex-decodes to a
byte string containing a length byte `n` followed by at least `n` bytes;
in the applicable case it returns exactly those `n` bytes decoded as
text with invalid encoding units replaced (a total decoding that cannot
fail), together with the remaining bytes as opaque trailing data when
there are any and absent otherwise. -/
theorem C9_wifi_credential_soft_decode (msg : VCMMessage) :
    ((¬ ∃ bs : List Nat, ("02020000".toList).isPrefixOf msg.data = true ∧
        bytesFromHex? (msg.data.drop 8) = some bs ∧ 1 ≤ bs.length ∧
        1 + bs.headD 0 ≤ bs.length) →
      decode_wifi_password_message msg = (none, none)) ∧
    (∀ bs : List Nat, ("02020000".toList).isPrefixOf msg.data = true →
      bytesFromHex? (msg.data.drop 8) = some bs → 1 ≤ bs.length →
      1 + bs.headD 0 ≤ bs.length →
      decode_wifi_password_message msg =
        (some (utf8DecodeReplace ((bs.drop 1).take (bs.headD 0))),
         if 1 + bs.headD 0 < bs.length then some (bs.drop (1 + bs.headD 0)) else none)) := by
  constructor
  · intro hno
    by_cases hpre : ("02020000".toList).isPrefixOf msg.data = true
    · cases hb : bytesFromHex? (msg.data.drop 8) with
      | none =>
        unfold decode_wifi_password_message
        rw [if_pos hpre, hb]
      | some bs =>
        rw [decode_wifi_password_message_some msg bs hpre hb]
        by_cases hl1 : bs.length < 1
        · rw [if_pos hl1]
        · rw [if_neg hl1]
          by_cases hl2 : bs.length < 1 + bs.headD 0
          · rw [if_pos hl2]
          · exact absurd ⟨bs, hpre, hb, by omega, by omega⟩ hno
    · unfold decode_wifi_password_message
      rw [if_neg hpre]
  · intro bs hpre hb h1 h2
    rw [decode_wifi_password_message_some msg bs hpre hb,
      if_neg (by omega : ¬ bs.length < 1),
      if_neg (by omega : ¬ bs.length < 1 + bs.headD 0)]

/-- Witness for C9 at the captured credential message carrying the text
`laikinas` followed by seven trailing bytes. -/
theorem C9_wifi_credential_soft_decode_witness :
    decode_wifi_password_message
      ⟨"00a4040800000000".toList, 0x18, "a40802".toList, 0x4b,
        "02020000086c61696b696e617319d195cdd185cc".toList⟩ =
      (some "laikinas", some [0x19, 0xd1, 0x95, 0xcd, 0xd1, 0x85, 0xcc]) := by
  have h := (C9_wifi_credential_soft_decode
      ⟨"00a4040800000000".toList, 0x18, "a40802".toList, 0x4b,
        "02020000086c61696b696e617319d195cdd185cc".toList⟩).2
    [0x08, 0x6c, 0x61, 0x69, 0x6b, 0x69, 0x6e, 0x61, 0x73,
      0x19, 0xd1, 0x95, 0xcd, 0xd1, 0x85, 0xcc]
    (by rfl) (by rfl) (by decide) (by decide)
  rw [h]
  rfl

/-!
Claim C10: the connected flag tracks the `WIFI_CONNECTED` state.
-/

/-- The invariant holds whenever flag and state are both negative. -/
theorem connectedFlagInv_of_ne {m : VCMStateMachine}
    (h1 : m.ctx.wifi_connected = false) (h2 : m.ctx.state ≠ VCMState.WIFI_CONNECTED) :
    ConnectedFlagInv m := by
  constructor
  · intro hc
    rw [h1] at hc
    exact absurd hc (by decide)
  · intro hc
    exact absurd hc h2

/-- The invariant holds whenever flag and state are both positive. -/
theorem connectedFlagInv_of_eq {m : VCMStateMachine}
    (h1 : m.ctx.wifi_connected = true) (h2 : m.ctx.state = VCMState.WIFI_CONNECTED) :
    ConnectedFlagInv m := by
  exact iff_of_true h1 h2

/-- Off the `WIFI_CONNECTED` state the invariant forces the flag down. -/
theorem connectedFlagInv_flag_false {m : VCMStateMachine} (hInv : ConnectedFlagInv m)
    (h : m.ctx.state ≠ VCMState.WIFI_CONNECTED) : m.ctx.wifi_connected = false := by
  cases hfc : m.ctx.wifi_connected
  · rfl
  · exact absurd (hInv.mp hfc) h

/-- `tick` never changes the state or the connected flag. -/
theorem tick_flag_state (m : VCMStateMachine) (now : ℚ) :
    (m.tick now).2.ctx.state = m.ctx.state ∧
    (m.tick now).2.ctx.wifi_connected = m.ctx.wifi_connected := by
  unfold VCMStateMachine.tick
  split
  · split
    · cases hb : create_ssid_broadcast m.ctx.state <;> simp
    · simp
  · simp

/-- C10: the invariant "connected flag is true iff the state is
`WIFI_CONNECTED`" holds for the freshly constructed machine (flag false,
state `IDLE`) and is preserved by every `process_message` and every
`tick`; moreover no `process_message` or `tick` ever clears the flag or
leaves the `WIFI_CONNECTED` state. -/
theorem C10_connected_flag_invariant :
    ConnectedFlagInv initMachine ∧
    (∀ (m : VCMStateMachine) (now : ℚ) (p : List Char), ConnectedFlagInv m →
      ConnectedFlagInv (m.process_message now p).2) ∧
    (∀ (m : VCMStateMachine) (now : ℚ), ConnectedFlagInv m →
      ConnectedFlagInv (m.tick now).2) ∧
    (∀ (m : VCMStateMachine) (now : ℚ) (p : List Char),
      m.ctx.wifi_connected = true →
      (m.process_message now p).2.ctx.wifi_connected = true) ∧
    (∀ (m : VCMStateMachine) (now : ℚ) (p : List Char),
      m.ctx.state = VCMState.WIFI_CONNECTED →
      (m.process_message now p).2.ctx.state = VCMState.WIFI_CONNECTED) ∧
    (∀ (m : VCMStateMachine) (now : ℚ),
      (m.tick now).2.ctx.state = m.ctx.state ∧
      (m.tick now).2.ctx.wifi_connected = m.ctx.wifi_connected) := by
  have hProc : ∀ (m : VCMStateMachine) (now : ℚ) (p : List Char), ConnectedFlagInv m →
      ConnectedFlagInv (m.process_message now p).2 := by
    intro m now p hInv
    cases hpm : parse_message p with
    | none =>
      rw [process_message_parse_none m now p hpm]
      exact hInv
    | some msg =>
      by_cases hack : msg.is_ack = true
      · rw [process_message_ack m now p msg hpm hack]
        exact hInv
      · have hna : msg.is_ack = false := by simpa using hack
        rw [process_message_some m now p msg hpm hna]
        have hInv1 : ConnectedFlagInv (track_sequence m msg) := by
          unfold ConnectedFlagInv at hInv ⊢
          rw [(track_sequence_fields m msg).1, (track_sequence_fields m msg).2.1]
          exact hInv
        cases hst : (track_sequence m msg).ctx.state with
        | IDLE =>
          obtain ⟨_, ef, _, est⟩ := handle_idle_effects (track_sequence m msg) msg
          have hflag := connectedFlagInv_flag_false hInv1 (by rw [hst]; decide)
          refine connectedFlagInv_of_ne (by rw [ef]; exact hflag) ?_
          rcases est with h | h <;> rw [h] <;> try rw [hst]
          all_goals decide
        | HANDSHAKE =>
          obtain ⟨_, ef, _, est⟩ := handle_handshake_effects (track_sequence m msg) msg
          have hflag := connectedFlagInv_flag_false hInv1 (by rw [hst]; decide)
          refine connectedFlagInv_of_ne (by rw [ef]; exact hflag) ?_
          rcases est with h | h <;> rw [h] <;> try rw [hst]
          all_goals decide
        | SETUP =>
          obtain ⟨_, ef, _, est, _⟩ := handle_setup_spec (track_sequence m msg) now msg
          have hflag := connectedFlagInv_flag_false hInv1 (by rw [hst]; decide)
          refine connectedFlagInv_of_ne (by rw [ef]; exact hflag) ?_
          rw [est]
          split
          · decide
          · rw [hst]
            decide
        | WIFI_SCANNING =>
          obtain ⟨_, ef, _, est⟩ := handle_wifi_scanning_effects (track_sequence m msg) msg
          have hflag := connectedFlagInv_flag_false hInv1 (by rw [hst]; decide)
          refine connectedFlagInv_of_ne (by rw [ef]; exact hflag) ?_
          rcases est with h | h <;> rw [h] <;> try rw [hst]
          all_goals decide
        | WIFI_CONNECTING =>
          obtain ⟨_, eff⟩ := handle_wifi_connecting_effects (track_sequence m msg) now msg
          rcases eff with h | ⟨h1, h2, _⟩
          · rw [h]
            exact hInv1
          · exact connectedFlagInv_of_eq h2 h1
        | WIFI_CONNECTED =>
          rw [handle_wifi_connected_effects (track_sequence m msg) msg]
          exact hInv1
  refine ⟨connectedFlagInv_of_ne rfl (by decide), hProc, ?_, ?_, ?_, tick_flag_state⟩
  · intro m now hInv
    unfold ConnectedFlagInv at hInv ⊢
    rw [(tick_flag_state m now).1, (tick_flag_state m now).2]
    exact hInv
  · intro m now p hflag
    cases hpm : parse_message p with
    | none =>
      rw [process_message_parse_none m now p hpm]
      exact hflag
    | some msg =>
      by_cases hack : msg.is_ack = true
      · rw [process_message_ack m now p msg hpm hack]
        exact hflag
      · have hna : msg.is_ack = false := by simpa using hack
        rw [process_message_some m now p msg hpm hna]
        have hflag1 : (track_sequence m msg).ctx.wifi_connected = true := by
          rw [(track_sequence_fields m msg).2.1]
          exact hflag
        cases hst : (track_sequence m msg).ctx.state with
        | IDLE =>
          rw [(handle_idle_effects (track_sequence m msg) msg).2.1]
          exact hflag1
        | HANDSHAKE =>
          rw [(handle_handshake_effects (track_sequence m msg) msg).2.1]
          exact hflag1
        | SETUP =>
          rw [(handle_setup_spec (track_sequence m msg) now msg).2.1]
          exact hflag1
        | WIFI_SCANNING =>
          rw [(handle_wifi_scanning_effects (track_sequence m msg) msg).2.1]
          exact hflag1
        | WIFI_CONNECTING =>
          rcases (handle_wifi_connecting_effects (track_sequence m msg) now msg).2 with
            h | ⟨_, h2, _⟩
          · rw [h]
            exact hflag1
          · exact h2
        | WIFI_CONNECTED =>
          rw [handle_wifi_connected_effects (track_sequence m msg) msg]
          exact hflag1
  · intro m now p hst
    cases hpm : parse_message p with
    | none =>
      rw [process_message_parse_none m now p hpm]
      exact hst
    | some msg =>
      by_cases hack : msg.is_ack = true
      · rw [process_message_ack m now p msg hpm hack]
        exact hst
      · have hna : msg.is_ack = false := by simpa using hack
        rw [process_message_some m now p msg hpm hna]
        have hst1 : (track_sequence m msg).ctx.state = VCMState.WIFI_CONNECTED := by
          rw [(track_sequence_fields m msg).1]
          exact hst
        rw [hst1, handle_wifi_connected_effects (track_sequence m msg) msg]
        exact hst1

/-- Witness for C10: the invariant holds initially and is preserved when
the initial machine processes a captured ping and then ticks. -/
theorem C10_connected_flag_invariant_witness :
    ConnectedFlagInv initMachine ∧
    ConnectedFlagInv (initMachine.process_message 0
      ("00a4040d00000008a40d002802000000".toList)).2 ∧
    ConnectedFlagInv ((initMachine.process_message 0
      ("00a4040d00000008a40d002802000000".toList)).2.tick 9).2 := by
  refine ⟨C10_connected_flag_invariant.1, ?_, ?_⟩
  · exact C10_connected_flag_invariant.2.1 initMachine 0 _
      C10_connected_flag_invariant.1
  · exact C10_connected_flag_invariant.2.2.1 _ 9
      (C10_connected_flag_invariant.2.1 initMachine 0 _ C10_connected_flag_invariant.1)

end VCMSim
